import Mathlib

/-!
The handlers of pritunl-zero that authenticate a user.

A shallow embedding of the HTTP handlers of `mhandlers/auth.go` (administrator
surface) and `uhandlers/auth.go` (user surface).

Every handler is a function of the gin context `c` and of the results of the
packages it calls (`auth`, `validator`, `audit`, `secondary`, `cookie`,
`session`, `authorizer`, `demo`).  Those packages are not part of the embedded
files, so their results are the fields of `World`, one function per callee,
taking the arguments the handler passes.  A handler returns the list of the
calls it made, in order and with their results, and the response it wrote.

The database handle `db` is the same value in every call and is left out of
the argument lists.  Go strings are modelled by `String`.

The address hash of `search/search.go` is embedded with the digest `md5` as a
parameter, and the session store behind `logoutAllGet` is a model taken from
the specification.
-/

set_option autoImplicit false

deriving instance DecidableEq for Except

namespace PritunlZero

/-! ## Values -/

/-- The dynamic type of a Go `error`, as far as the handlers inspect it with a
type assertion or a type switch. -/
inductive ErrorType where
  /-- Type `*database.NotFoundError`. -/
  | NotFoundError
  /-- Type `*secondary.IncompleteError`. -/
  | IncompleteError
  /-- Type `*auth.InvalidState`. -/
  | InvalidState
  /-- Any other error type. -/
  | Other
deriving DecidableEq

/-- A non-nil Go `error` value. -/
structure GoError where
  type : ErrorType
  text : String
deriving DecidableEq

/-- Go type `errortypes.ErrorData`. -/
structure ErrorData where
  Error : String
  Message : String
deriving DecidableEq

/-- Go type `bson.ObjectId`. -/
abbrev ObjectId := String

/-- Go type `user.User`; the handlers read the field `Id` only. -/
structure User where
  Id : ObjectId
  Username : String
deriving DecidableEq

/-- Field `URL` of `http.Request`. -/
structure URL where
  RawQuery : String
deriving DecidableEq

/-- Go type `http.Request`: the URL and the rest of the request. -/
structure Request where
  URL : URL
  Descriptor : String
deriving DecidableEq

/-- Go type `auth.StateProvider`. -/
structure StateProvider where
  Id : String
  Typ : String
  Label : String
deriving DecidableEq

/-- The scope constants `secondary.Admin`, `secondary.User` and
`secondary.Register`. -/
inductive SecondaryScope where
  | Admin
  | User
  | Register
deriving DecidableEq

/-- Modelled from the spec: the constant `secondary.DeviceProvider` is declared
in the `secondary` package; the data model gives a challenge's `provider_ref`
as `device` for the hardware token. -/
def DeviceProvider : ObjectId := "device"

/-- Go type `secondary.Secondary`, the challenge: the token `Id` and the
attributes it is created with. -/
structure Secondary where
  Id : String
  UserId : ObjectId
  Typ : SecondaryScope
  ProviderId : ObjectId
deriving DecidableEq

/-- The audit kinds `audit.AdminLogin`, `audit.AdminLoginFailed`,
`audit.UserLogin`, `audit.UserLoginFailed`, `audit.UserDeviceRegister` and
`audit.UserDeviceRegisterFailed`. -/
inductive AuditKind where
  | AdminLogin
  | AdminLoginFailed
  | UserLogin
  | UserLoginFailed
  | UserDeviceRegister
  | UserDeviceRegisterFailed
deriving DecidableEq

/-- Go type `audit.Fields`, a `map[string]string` literal, as the list of its
entries. -/
abbrev Fields := List (String × String)

/-- The session scopes `session.Admin` and `session.User`. -/
inductive SessionScope where
  | Admin
  | User
deriving DecidableEq

/-- The cookie binder made by `cookie.NewAdmin` or by `cookie.NewUser`. -/
inductive Cookie where
  | Admin
  | User
deriving DecidableEq

/-- Go type `session.Session`. -/
structure Session where
  Id : String
  User : ObjectId
deriving DecidableEq

/-- Go type `auth.Token` returned by `auth.Callback`; the handlers read the
field `Query` only. -/
structure Token where
  Query : String
deriving DecidableEq

/-- Go type `authorizer.Authorizer`, stored in the context by the middleware. -/
structure Authorizer where
  sess : Option Session
deriving DecidableEq

/-- Request body of `authSessionPost`. -/
structure authData where
  Username : String
  Password : String
deriving DecidableEq

/-- Request body of `authSecondaryPost`. -/
structure secondaryData where
  Token : String
  Factor : String
  Passcode : String
deriving DecidableEq

/-- Request body of `authU2fSignPost`; the device response is kept as its
JSON text. -/
structure u2fSignData where
  Token : String
  Response : String
deriving DecidableEq

/-- Request body of `authU2fRegisterPost`; the device response is kept as its
JSON text. -/
structure u2fRegisterData where
  Token : String
  Response : String
deriving DecidableEq

/-! ## Responses -/

/-- The value a handler passes to `c.JSON`. -/
inductive Body where
  /-- A `*errortypes.ErrorData`. -/
  | errorData (errData : ErrorData)
  /-- The state of `auth.GetState()`, as its list of providers. -/
  | state (providers : List StateProvider)
  /-- The descriptor returned by `secd.GetData()`. -/
  | secondaryData (data : String)
  /-- The sign request returned by `secd.DeviceSignRequest`. -/
  | signRequest (resp : String)
  /-- The facets returned by `device.GetFacets()`. -/
  | facets (data : String)
  /-- A `u2fRegisterRespData`. -/
  | u2fRegisterRespData (Token : String) (Request : String)
  /-- The Go value `nil`. -/
  | nil
deriving DecidableEq

/-- What a handler writes to the client: the last call it makes on the gin
context, or the response a callee wrote on its behalf. -/
inductive Response where
  /-- Call `utils.AbortWithError(c, code, err)`. -/
  | AbortWithError (code : Nat) (err : GoError)
  /-- Call `c.JSON(code, body)`. -/
  | JSON (code : Nat) (body : Body)
  /-- Call `c.Status(code)`. -/
  | Status (code : Nat)
  /-- Call `c.Redirect(code, location)`. -/
  | Redirect (code : Nat) (location : String)
  /-- Call `redirectQueryJson(c, query)`, a helper of package `uhandlers`. -/
  | redirectQueryJson (query : String)
  /-- Call `redirectQuery(c, query)`, a helper of package `uhandlers`. -/
  | redirectQuery (query : String)
  /-- A response written by a callee (`auth.Request`, `demo.Blocked`), given by
  its status code and its content. -/
  | written (code : Nat) (content : String)
deriving DecidableEq

/-- Modelled from the spec: the status code of a response.  The helpers
`redirectQueryJson` and `redirectQuery` are declared in another file of package
`uhandlers`, and `utils.AbortWithError` in package `utils`; the spec gives the
user surface's post-login outcome as a 302 redirect that preserves the query,
and an aborted request the status it is aborted with. -/
def Response.statusCode : Response → Nat
  | .AbortWithError code _ => code
  | .JSON code _ => code
  | .Status code => code
  | .Redirect code _ => code
  | .redirectQueryJson _ => 302
  | .redirectQuery _ => 302
  | .written code _ => code

/-! ## The gin context -/

/-- The gin context of one request, as far as the handlers read it: the
request, the query parameters, the outcome of `c.Bind` for each body type, and
the authorizer stored under the key `authorizer`. -/
structure Context where
  Request : Request
  Query : String → String
  BindAuthData : Except GoError authData
  BindSecondaryData : Except GoError secondaryData
  BindU2fSignData : Except GoError u2fSignData
  BindU2fRegisterData : Except GoError u2fRegisterData
  authorizer : Authorizer

/-! ## Results of the callees -/

/-- Result `(usr, errData, err)` of `auth.Local`. -/
structure LocalResult where
  usr : User
  errData : Option ErrorData
  err : Option GoError
deriving DecidableEq

/-- Result `(usr, tokn, errData, err)` of `auth.Callback`. -/
structure CallbackResult where
  usr : User
  tokn : Token
  errData : Option ErrorData
  err : Option GoError
deriving DecidableEq

/-- Result `(deviceAuth, secProviderId, errData, err)` of
`validator.ValidateAdmin` and `validator.ValidateUser`. -/
structure ValidateResult where
  deviceAuth : Bool
  secProviderId : ObjectId
  errData : Option ErrorData
  err : Option GoError
deriving DecidableEq

/-- Result `(errData, err)` of `secd.Handle`, `secd.DeviceSignResponse` and
`secd.DeviceRegisterResponse`. -/
structure HandleResult where
  errData : Option ErrorData
  err : Option GoError
deriving DecidableEq

/-- Result `(resp, errData, err)` of `secd.DeviceSignRequest` and
`secd.DeviceRegisterRequest`. -/
structure DeviceRequestResult where
  resp : String
  errData : Option ErrorData
  err : Option GoError
deriving DecidableEq

/-- The results of the packages the handlers call.  A user pointer returned
with neither error data nor an error is taken to be non-nil. -/
structure World where
  /-- Function `auth.GetState()`, as the providers of the state. -/
  GetState : List StateProvider
  /-- Function `demo.IsDemo()`. -/
  IsDemo : Bool
  /-- Function `demo.Blocked(c)`: `some r` when it returns true, having written
  the response `r`. -/
  Blocked : Context → Option Response
  /-- Function `auth.Local(db, username, password)`. -/
  Local : String → String → LocalResult
  /-- Function `auth.Request(c)`, which writes the response itself. -/
  AuthRequest : Context → Response
  /-- Function `auth.Callback(db, sig, query)`. -/
  Callback : String → String → CallbackResult
  /-- Function `validator.ValidateAdmin(db, usr, isApi, r)`. -/
  ValidateAdmin : User → Bool → Request → ValidateResult
  /-- Function `validator.ValidateUser(db, usr, isApi, r)`. -/
  ValidateUser : User → Bool → Request → ValidateResult
  /-- Function `audit.New(db, r, userId, typ, fields)`. -/
  AuditNew : Request → ObjectId → AuditKind → Fields → Option GoError
  /-- Function `secondary.New(db, userId, typ, providerId)`. -/
  SecondaryNew : ObjectId → SecondaryScope → ObjectId → Except GoError Secondary
  /-- Function `secondary.Get(db, token, typ)`. -/
  SecondaryGet : String → SecondaryScope → Except GoError Secondary
  /-- Method `secd.GetData()`. -/
  GetData : Secondary → Except GoError String
  /-- Method `secd.GetQuery()`. -/
  GetQuery : Secondary → Except GoError String
  /-- Method `secd.Handle(db, r, factor, passcode)`. -/
  Handle : Secondary → Request → String → String → HandleResult
  /-- Method `secd.GetUser(db)`. -/
  GetUser : Secondary → Except GoError User
  /-- Method `secd.DeviceSignRequest(db)`. -/
  DeviceSignRequest : Secondary → DeviceRequestResult
  /-- Method `secd.DeviceSignResponse(db, resp)`. -/
  DeviceSignResponse : Secondary → String → HandleResult
  /-- Method `secd.DeviceRegisterRequest(db)`. -/
  DeviceRegisterRequest : Secondary → DeviceRequestResult
  /-- Method `secd.DeviceRegisterResponse(db, resp)`. -/
  DeviceRegisterResponse : Secondary → String → HandleResult
  /-- Method `cook.NewSession(db, r, userId, remember, typ)` of the binder
  `cook`; the session it returns is discarded by every handler. -/
  NewSession : Cookie → Request → ObjectId → Bool → SessionScope → Option GoError
  /-- Method `authr.IsValid()`. -/
  IsValid : Authorizer → Bool
  /-- Method `authr.Remove(db)`. -/
  AuthrRemove : Authorizer → Option GoError
  /-- Method `authr.GetUser(db)`. -/
  AuthrGetUser : Authorizer → Except GoError User
  /-- Function `session.GetAll(db, userId, includeRemoved)`. -/
  GetAll : ObjectId → Bool → Except GoError (List Session)
  /-- Method `sess.Remove(db)`. -/
  SessionRemove : Session → Option GoError
  /-- Function `device.GetFacets()`. -/
  GetFacets : String

/-- One call of a handler to another package, with its arguments and its
result. -/
inductive Call where
  | GetState (res : List StateProvider)
  | IsDemo (res : Bool)
  | Blocked (res : Option Response)
  | Local (username password : String) (res : LocalResult)
  | AuthRequest (res : Response)
  | Callback (sig query : String) (res : CallbackResult)
  | ValidateAdmin (usr : User) (isApi : Bool) (r : Request) (res : ValidateResult)
  | ValidateUser (usr : User) (isApi : Bool) (r : Request) (res : ValidateResult)
  | AuditNew (r : Request) (userId : ObjectId) (typ : AuditKind) (fields : Fields)
      (res : Option GoError)
  | SecondaryNew (userId : ObjectId) (typ : SecondaryScope) (providerId : ObjectId)
      (res : Except GoError Secondary)
  | SecondaryGet (token : String) (typ : SecondaryScope) (res : Except GoError Secondary)
  | GetData (secd : Secondary) (res : Except GoError String)
  | GetQuery (secd : Secondary) (res : Except GoError String)
  | Handle (secd : Secondary) (r : Request) (factor passcode : String) (res : HandleResult)
  | GetUser (secd : Secondary) (res : Except GoError User)
  | DeviceSignRequest (secd : Secondary) (res : DeviceRequestResult)
  | DeviceSignResponse (secd : Secondary) (resp : String) (res : HandleResult)
  | DeviceRegisterRequest (secd : Secondary) (res : DeviceRequestResult)
  | DeviceRegisterResponse (secd : Secondary) (resp : String) (res : HandleResult)
  | CookieNewAdmin
  | CookieNewUser
  | NewSession (cook : Cookie) (r : Request) (userId : ObjectId) (remember : Bool)
      (typ : SessionScope) (res : Option GoError)
  | IsValid (authr : Authorizer) (res : Bool)
  | AuthrRemove (authr : Authorizer) (res : Option GoError)
  | AuthrGetUser (authr : Authorizer) (res : Except GoError User)
  | GetAll (userId : ObjectId) (includeRemoved : Bool) (res : Except GoError (List Session))
  | SessionRemove (sess : Session) (res : Option GoError)
  | GetFacets (res : String)
deriving DecidableEq

/-- What one run of a handler produces: the calls it made, in order, and the
response it wrote. -/
structure Outcome where
  trace : List Call
  response : Response
deriving DecidableEq

/-! ## Go's `strings.Split` -/

namespace strings

/-- Go `strings.Index(s, sep)` on the characters of the strings: the position
of the first instance of `sep` in `s`, `none` where Go returns -1. -/
def Index : List Char → List Char → Option Nat
  | [], sep => if sep = [] then some 0 else none
  | c :: cs, sep =>
    if sep.isPrefixOf (c :: cs) then some 0 else (Index cs sep).map (· + 1)

/-- The loop of Go's `genSplit` for a non-empty separator and no limit: cut
`s` at the first instance of `sep`, and go on with what follows it.  The loop
runs once per instance of `sep`, so at most `len(s)` times. -/
def genSplit (sep : List Char) : Nat → List Char → List (List Char)
  | 0, s => [s]
  | n + 1, s =>
    match Index s sep with
    | none => [s]
    | some m => s.take m :: genSplit sep n (s.drop (m + sep.length))

/-- Go `strings.Split(s, sep)`: the substrings of `s` between the instances of
`sep`; with an empty `sep`, one string per character. -/
def Split (s sep : String) : List String :=
  if sep = "" then s.data.map (fun ch => String.mk [ch])
  else (genSplit sep.data s.length s.data).map String.mk

end strings

/-- The expression `strings.Split(c.Request.URL.RawQuery, "&sig=")[0]` of
`authCallbackGet`.  `Split` never returns an empty slice, so the index
expression does not fail. -/
def canonicalQuery (RawQuery : String) : String :=
  (strings.Split RawQuery "&sig=").headD ""

/-- The body of the 401 response for a challenge that is not found. -/
def secondaryExpired : ErrorData :=
  { Error := "secondary_expired",
    Message := "Two-factor authentication has expired" }

/-- The state provider appended in demo mode. -/
def demoProvider : StateProvider :=
  { Id := "demo", Typ := "demo", Label := "demo" }

/-! ## Package `mhandlers` -/

namespace mhandlers

/-- Handler `authStateGet` of `mhandlers/auth.go`. -/
def authStateGet (w : World) (_c : Context) : Outcome :=
  let data := w.GetState
  let t := [Call.GetState data, Call.IsDemo w.IsDemo]
  if w.IsDemo then
    ⟨t, .JSON 200 (.state (data ++ [demoProvider]))⟩
  else
    ⟨t, .JSON 200 (.state data)⟩

/-- Handler `authSessionPost` of `mhandlers/auth.go`. -/
def authSessionPost (w : World) (c : Context) : Outcome :=
  match c.BindAuthData with
  | .error err => ⟨[], .AbortWithError 500 err⟩
  | .ok data =>
  let res := w.Local data.Username data.Password
  let t := [Call.Local data.Username data.Password res]
  match res.err with
  | some err => ⟨t, .AbortWithError 500 err⟩
  | none =>
  match res.errData with
  | some errData => ⟨t, .JSON 401 (.errorData errData)⟩
  | none =>
  let usr := res.usr
  let v := w.ValidateAdmin usr false c.Request
  let t := t ++ [Call.ValidateAdmin usr false c.Request v]
  match v.err with
  | some err => ⟨t, .AbortWithError 500 err⟩
  | none =>
  match v.errData with
  | some errData =>
    let fields : Fields := [("error", errData.Error), ("message", errData.Message)]
    let a := w.AuditNew c.Request usr.Id .AdminLoginFailed fields
    let t := t ++ [Call.AuditNew c.Request usr.Id .AdminLoginFailed fields a]
    match a with
    | some err => ⟨t, .AbortWithError 500 err⟩
    | none => ⟨t, .JSON 401 (.errorData errData)⟩
  | none =>
  if v.deviceAuth then
    let n := w.SecondaryNew usr.Id .Admin DeviceProvider
    let t := t ++ [Call.SecondaryNew usr.Id .Admin DeviceProvider n]
    match n with
    | .error err => ⟨t, .AbortWithError 500 err⟩
    | .ok secd =>
    let d := w.GetData secd
    let t := t ++ [Call.GetData secd d]
    match d with
    | .error err => ⟨t, .AbortWithError 500 err⟩
    | .ok data => ⟨t, .JSON 201 (.secondaryData data)⟩
  else if v.secProviderId != "" then
    let n := w.SecondaryNew usr.Id .Admin v.secProviderId
    let t := t ++ [Call.SecondaryNew usr.Id .Admin v.secProviderId n]
    match n with
    | .error err => ⟨t, .AbortWithError 500 err⟩
    | .ok secd =>
    let d := w.GetData secd
    let t := t ++ [Call.GetData secd d]
    match d with
    | .error err => ⟨t, .AbortWithError 500 err⟩
    | .ok data => ⟨t, .JSON 201 (.secondaryData data)⟩
  else
  let fields : Fields := [("method", "local")]
  let a := w.AuditNew c.Request usr.Id .AdminLogin fields
  let t := t ++ [Call.AuditNew c.Request usr.Id .AdminLogin fields a]
  match a with
  | some err => ⟨t, .AbortWithError 500 err⟩
  | none =>
  let cook := Cookie.Admin
  let s := w.NewSession cook c.Request usr.Id true .Admin
  let t := t ++ [Call.CookieNewAdmin, Call.NewSession cook c.Request usr.Id true .Admin s]
  match s with
  | some err => ⟨t, .AbortWithError 500 err⟩
  | none => ⟨t, .Status 200⟩

/-- Handler `authSecondaryPost` of `mhandlers/auth.go`. -/
def authSecondaryPost (w : World) (c : Context) : Outcome :=
  match c.BindSecondaryData with
  | .error err => ⟨[], .AbortWithError 500 err⟩
  | .ok data =>
  let g := w.SecondaryGet data.Token .Admin
  let t := [Call.SecondaryGet data.Token .Admin g]
  match g with
  | .error err =>
    if err.type = .NotFoundError then
      ⟨t, .JSON 401 (.errorData secondaryExpired)⟩
    else
      ⟨t, .AbortWithError 500 err⟩
  | .ok secd =>
  let h := w.Handle secd c.Request data.Factor data.Passcode
  let t := t ++ [Call.Handle secd c.Request data.Factor data.Passcode h]
  match h.err with
  | some err =>
    if err.type = .IncompleteError then
      ⟨t, .Status 201⟩
    else
      ⟨t, .AbortWithError 500 err⟩
  | none =>
  match h.errData with
  | some errData => ⟨t, .JSON 401 (.errorData errData)⟩
  | none =>
  let u := w.GetUser secd
  let t := t ++ [Call.GetUser secd u]
  match u with
  | .error err => ⟨t, .AbortWithError 500 err⟩
  | .ok usr =>
  let v := w.ValidateAdmin usr false c.Request
  let t := t ++ [Call.ValidateAdmin usr false c.Request v]
  match v.err with
  | some err => ⟨t, .AbortWithError 500 err⟩
  | none =>
  match v.errData with
  | some errData =>
    let fields : Fields := [("error", errData.Error), ("message", errData.Message)]
    let a := w.AuditNew c.Request usr.Id .AdminLoginFailed fields
    let t := t ++ [Call.AuditNew c.Request usr.Id .AdminLoginFailed fields a]
    match a with
    | some err => ⟨t, .AbortWithError 500 err⟩
    | none => ⟨t, .JSON 401 (.errorData errData)⟩
  | none =>
  let fields : Fields := [("method", "secondary")]
  let a := w.AuditNew c.Request usr.Id .AdminLogin fields
  let t := t ++ [Call.AuditNew c.Request usr.Id .AdminLogin fields a]
  match a with
  | some err => ⟨t, .AbortWithError 500 err⟩
  | none =>
  let cook := Cookie.Admin
  let s := w.NewSession cook c.Request usr.Id true .Admin
  let t := t ++ [Call.CookieNewAdmin, Call.NewSession cook c.Request usr.Id true .Admin s]
  match s with
  | some err => ⟨t, .AbortWithError 500 err⟩
  | none => ⟨t, .Status 200⟩

/-- Handler `logoutGet` of `mhandlers/auth.go`. -/
def logoutGet (w : World) (c : Context) : Outcome :=
  let authr := c.authorizer
  let t := [Call.IsValid authr (w.IsValid authr)]
  if w.IsValid authr then
    let r := w.AuthrRemove authr
    let t := t ++ [Call.AuthrRemove authr r]
    match r with
    | some err => ⟨t, .AbortWithError 500 err⟩
    | none => ⟨t, .Redirect 302 "/login"⟩
  else
    ⟨t, .Redirect 302 "/login"⟩

/-- Handler `authRequestGet` of `mhandlers/auth.go`. -/
def authRequestGet (w : World) (c : Context) : Outcome :=
  ⟨[Call.AuthRequest (w.AuthRequest c)], w.AuthRequest c⟩

/-- Handler `authCallbackGet` of `mhandlers/auth.go`. -/
def authCallbackGet (w : World) (c : Context) : Outcome :=
  let sig := c.Query "sig"
  let query := canonicalQuery c.Request.URL.RawQuery
  let res := w.Callback sig query
  let t := [Call.Callback sig query res]
  match res.err with
  | some err =>
    match err.type with
    | .InvalidState => ⟨t, .Redirect 302 "/"⟩
    | _ => ⟨t, .AbortWithError 500 err⟩
  | none =>
  match res.errData with
  | some errData => ⟨t, .JSON 401 (.errorData errData)⟩
  | none =>
  let usr := res.usr
  let v := w.ValidateAdmin usr false c.Request
  let t := t ++ [Call.ValidateAdmin usr false c.Request v]
  match v.err with
  | some err => ⟨t, .AbortWithError 500 err⟩
  | none =>
  match v.errData with
  | some errData =>
    let fields : Fields := [("error", errData.Error), ("message", errData.Message)]
    let a := w.AuditNew c.Request usr.Id .AdminLoginFailed fields
    let t := t ++ [Call.AuditNew c.Request usr.Id .AdminLoginFailed fields a]
    match a with
    | some err => ⟨t, .AbortWithError 500 err⟩
    | none => ⟨t, .JSON 401 (.errorData errData)⟩
  | none =>
  if v.deviceAuth then
    let n := w.SecondaryNew usr.Id .Admin DeviceProvider
    let t := t ++ [Call.SecondaryNew usr.Id .Admin DeviceProvider n]
    match n with
    | .error err => ⟨t, .AbortWithError 500 err⟩
    | .ok secd =>
    let d := w.GetData secd
    let t := t ++ [Call.GetData secd d]
    match d with
    | .error err => ⟨t, .AbortWithError 500 err⟩
    | .ok data => ⟨t, .JSON 201 (.secondaryData data)⟩
  else if v.secProviderId != "" then
    let n := w.SecondaryNew usr.Id .Admin v.secProviderId
    let t := t ++ [Call.SecondaryNew usr.Id .Admin v.secProviderId n]
    match n with
    | .error err => ⟨t, .AbortWithError 500 err⟩
    | .ok secd =>
    let q := w.GetQuery secd
    let t := t ++ [Call.GetQuery secd q]
    match q with
    | .error err => ⟨t, .AbortWithError 500 err⟩
    | .ok urlQuery => ⟨t, .Redirect 302 ("/login?" ++ urlQuery)⟩
  else
  let fields : Fields := [("method", "sso")]
  let a := w.AuditNew c.Request usr.Id .AdminLogin fields
  let t := t ++ [Call.AuditNew c.Request usr.Id .AdminLogin fields a]
  match a with
  | some err => ⟨t, .AbortWithError 500 err⟩
  | none =>
  let cook := Cookie.Admin
  let s := w.NewSession cook c.Request usr.Id true .Admin
  let t := t ++ [Call.CookieNewAdmin, Call.NewSession cook c.Request usr.Id true .Admin s]
  match s with
  | some err => ⟨t, .AbortWithError 500 err⟩
  | none => ⟨t, .Redirect 302 "/"⟩

/-- Handler `authU2fSignGet` of `mhandlers/auth.go`. -/
def authU2fSignGet (w : World) (c : Context) : Outcome :=
  let token := c.Query "token"
  let g := w.SecondaryGet token .Admin
  let t := [Call.SecondaryGet token .Admin g]
  match g with
  | .error err =>
    if err.type = .NotFoundError then
      ⟨t, .JSON 401 (.errorData secondaryExpired)⟩
    else
      ⟨t, .AbortWithError 500 err⟩
  | .ok secd =>
  let r := w.DeviceSignRequest secd
  let t := t ++ [Call.DeviceSignRequest secd r]
  match r.err with
  | some err => ⟨t, .AbortWithError 500 err⟩
  | none =>
  match r.errData with
  | some errData => ⟨t, .JSON 401 (.errorData errData)⟩
  | none => ⟨t, .JSON 200 (.signRequest r.resp)⟩

/-- Handler `authU2fSignPost` of `mhandlers/auth.go`.  The error data returned
by `secd.DeviceSignResponse` is assigned to `errData` and not read before the
validator's result is assigned to the same variable. -/
def authU2fSignPost (w : World) (c : Context) : Outcome :=
  match c.BindU2fSignData with
  | .error err => ⟨[], .AbortWithError 500 err⟩
  | .ok data =>
  let g := w.SecondaryGet data.Token .Admin
  let t := [Call.SecondaryGet data.Token .Admin g]
  match g with
  | .error err =>
    if err.type = .NotFoundError then
      ⟨t, .JSON 401 (.errorData secondaryExpired)⟩
    else
      ⟨t, .AbortWithError 500 err⟩
  | .ok secd =>
  let h := w.DeviceSignResponse secd data.Response
  let t := t ++ [Call.DeviceSignResponse secd data.Response h]
  match h.err with
  | some err => ⟨t, .AbortWithError 500 err⟩
  | none =>
  let u := w.GetUser secd
  let t := t ++ [Call.GetUser secd u]
  match u with
  | .error err => ⟨t, .AbortWithError 500 err⟩
  | .ok usr =>
  let v := w.ValidateAdmin usr false c.Request
  let t := t ++ [Call.ValidateAdmin usr false c.Request v]
  match v.err with
  | some err => ⟨t, .AbortWithError 500 err⟩
  | none =>
  match v.errData with
  | some errData =>
    let fields : Fields := [("error", errData.Error), ("message", errData.Message)]
    let a := w.AuditNew c.Request usr.Id .AdminLoginFailed fields
    let t := t ++ [Call.AuditNew c.Request usr.Id .AdminLoginFailed fields a]
    match a with
    | some err => ⟨t, .AbortWithError 500 err⟩
    | none => ⟨t, .JSON 401 (.errorData errData)⟩
  | none =>
  if v.secProviderId != "" then
    let n := w.SecondaryNew usr.Id .Admin v.secProviderId
    let t := t ++ [Call.SecondaryNew usr.Id .Admin v.secProviderId n]
    match n with
    | .error err => ⟨t, .AbortWithError 500 err⟩
    | .ok secd =>
    let d := w.GetData secd
    let t := t ++ [Call.GetData secd d]
    match d with
    | .error err => ⟨t, .AbortWithError 500 err⟩
    | .ok data => ⟨t, .JSON 201 (.secondaryData data)⟩
  else
  let fields : Fields := [("method", "secondary")]
  let a := w.AuditNew c.Request usr.Id .AdminLogin fields
  let t := t ++ [Call.AuditNew c.Request usr.Id .AdminLogin fields a]
  match a with
  | some err => ⟨t, .AbortWithError 500 err⟩
  | none =>
  let cook := Cookie.Admin
  let s := w.NewSession cook c.Request usr.Id true .Admin
  let t := t ++ [Call.CookieNewAdmin, Call.NewSession cook c.Request usr.Id true .Admin s]
  match s with
  | some err => ⟨t, .AbortWithError 500 err⟩
  | none => ⟨t, .Status 200⟩

end mhandlers

/-! ## Package `uhandlers` -/

namespace uhandlers

/-- Handler `authStateGet` of `uhandlers/auth.go`. -/
def authStateGet (w : World) (_c : Context) : Outcome :=
  let data := w.GetState
  let t := [Call.GetState data, Call.IsDemo w.IsDemo]
  if w.IsDemo then
    ⟨t, .JSON 200 (.state (data ++ [demoProvider]))⟩
  else
    ⟨t, .JSON 200 (.state data)⟩

/-- Handler `authSessionPost` of `uhandlers/auth.go`. -/
def authSessionPost (w : World) (c : Context) : Outcome :=
  match c.BindAuthData with
  | .error err => ⟨[], .AbortWithError 500 err⟩
  | .ok data =>
  let res := w.Local data.Username data.Password
  let t := [Call.Local data.Username data.Password res]
  match res.err with
  | some err => ⟨t, .AbortWithError 500 err⟩
  | none =>
  match res.errData with
  | some errData => ⟨t, .JSON 401 (.errorData errData)⟩
  | none =>
  let usr := res.usr
  let v := w.ValidateUser usr false c.Request
  let t := t ++ [Call.ValidateUser usr false c.Request v]
  match v.err with
  | some err => ⟨t, .AbortWithError 500 err⟩
  | none =>
  match v.errData with
  | some errData =>
    let fields : Fields := [("error", errData.Error), ("message", errData.Message)]
    let a := w.AuditNew c.Request usr.Id .UserLoginFailed fields
    let t := t ++ [Call.AuditNew c.Request usr.Id .UserLoginFailed fields a]
    match a with
    | some err => ⟨t, .AbortWithError 500 err⟩
    | none => ⟨t, .JSON 401 (.errorData errData)⟩
  | none =>
  if v.deviceAuth then
    let n := w.SecondaryNew usr.Id .User DeviceProvider
    let t := t ++ [Call.SecondaryNew usr.Id .User DeviceProvider n]
    match n with
    | .error err => ⟨t, .AbortWithError 500 err⟩
    | .ok secd =>
    let d := w.GetData secd
    let t := t ++ [Call.GetData secd d]
    match d with
    | .error err => ⟨t, .AbortWithError 500 err⟩
    | .ok data => ⟨t, .JSON 201 (.secondaryData data)⟩
  else if v.secProviderId != "" then
    let n := w.SecondaryNew usr.Id .User v.secProviderId
    let t := t ++ [Call.SecondaryNew usr.Id .User v.secProviderId n]
    match n with
    | .error err => ⟨t, .AbortWithError 500 err⟩
    | .ok secd =>
    let d := w.GetData secd
    let t := t ++ [Call.GetData secd d]
    match d with
    | .error err => ⟨t, .AbortWithError 500 err⟩
    | .ok data => ⟨t, .JSON 201 (.secondaryData data)⟩
  else
  let fields : Fields := [("method", "local")]
  let a := w.AuditNew c.Request usr.Id .UserLogin fields
  let t := t ++ [Call.AuditNew c.Request usr.Id .UserLogin fields a]
  match a with
  | some err => ⟨t, .AbortWithError 500 err⟩
  | none =>
  let cook := Cookie.User
  let s := w.NewSession cook c.Request usr.Id true .User
  let t := t ++ [Call.CookieNewUser, Call.NewSession cook c.Request usr.Id true .User s]
  match s with
  | some err => ⟨t, .AbortWithError 500 err⟩
  | none => ⟨t, .redirectQueryJson c.Request.URL.RawQuery⟩

/-- Handler `authSecondaryPost` of `uhandlers/auth.go`. -/
def authSecondaryPost (w : World) (c : Context) : Outcome :=
  match c.BindSecondaryData with
  | .error err => ⟨[], .AbortWithError 500 err⟩
  | .ok data =>
  let g := w.SecondaryGet data.Token .User
  let t := [Call.SecondaryGet data.Token .User g]
  match g with
  | .error err =>
    if err.type = .NotFoundError then
      ⟨t, .JSON 401 (.errorData secondaryExpired)⟩
    else
      ⟨t, .AbortWithError 500 err⟩
  | .ok secd =>
  let h := w.Handle secd c.Request data.Factor data.Passcode
  let t := t ++ [Call.Handle secd c.Request data.Factor data.Passcode h]
  match h.err with
  | some err =>
    if err.type = .IncompleteError then
      ⟨t, .Status 201⟩
    else
      ⟨t, .AbortWithError 500 err⟩
  | none =>
  match h.errData with
  | some errData => ⟨t, .JSON 401 (.errorData errData)⟩
  | none =>
  let u := w.GetUser secd
  let t := t ++ [Call.GetUser secd u]
  match u with
  | .error err => ⟨t, .AbortWithError 500 err⟩
  | .ok usr =>
  let v := w.ValidateUser usr false c.Request
  let t := t ++ [Call.ValidateUser usr false c.Request v]
  match v.err with
  | some err => ⟨t, .AbortWithError 500 err⟩
  | none =>
  match v.errData with
  | some errData =>
    let fields : Fields := [("error", errData.Error), ("message", errData.Message)]
    let a := w.AuditNew c.Request usr.Id .UserLoginFailed fields
    let t := t ++ [Call.AuditNew c.Request usr.Id .UserLoginFailed fields a]
    match a with
    | some err => ⟨t, .AbortWithError 500 err⟩
    | none => ⟨t, .JSON 401 (.errorData errData)⟩
  | none =>
  let fields : Fields := [("method", "secondary")]
  let a := w.AuditNew c.Request usr.Id .UserLogin fields
  let t := t ++ [Call.AuditNew c.Request usr.Id .UserLogin fields a]
  match a with
  | some err => ⟨t, .AbortWithError 500 err⟩
  | none =>
  let cook := Cookie.User
  let s := w.NewSession cook c.Request usr.Id true .User
  let t := t ++ [Call.CookieNewUser, Call.NewSession cook c.Request usr.Id true .User s]
  match s with
  | some err => ⟨t, .AbortWithError 500 err⟩
  | none => ⟨t, .redirectQueryJson c.Request.URL.RawQuery⟩

/-- Handler `logoutGet` of `uhandlers/auth.go`. -/
def logoutGet (w : World) (c : Context) : Outcome :=
  let authr := c.authorizer
  let t := [Call.IsValid authr (w.IsValid authr)]
  if w.IsValid authr then
    let r := w.AuthrRemove authr
    let t := t ++ [Call.AuthrRemove authr r]
    match r with
    | some err => ⟨t, .AbortWithError 500 err⟩
    | none => ⟨t, .Redirect 302 "/"⟩
  else
    ⟨t, .Redirect 302 "/"⟩

/-- The loop `for _, sess := range sessions` of `logoutAllGet`: remove the
sessions in order and stop at the first failure, which is returned.  The
diagnostic `println(sess.Id)` writes to the standard error of the process and
is no part of the trace. -/
def removeSessions (w : World) : List Session → List Call × Option GoError
  | [] => ([], none)
  | sess :: rest =>
    match w.SessionRemove sess with
    | some err => ([Call.SessionRemove sess (some err)], some err)
    | none =>
      (Call.SessionRemove sess none :: (removeSessions w rest).1,
        (removeSessions w rest).2)

/-- Handler `logoutAllGet` of `uhandlers/auth.go`. -/
def logoutAllGet (w : World) (c : Context) : Outcome :=
  match w.Blocked c with
  | some r => ⟨[Call.Blocked (some r)], r⟩
  | none =>
  let t := [Call.Blocked none]
  let authr := c.authorizer
  let u := w.AuthrGetUser authr
  let t := t ++ [Call.AuthrGetUser authr u]
  match u with
  | .error err => ⟨t, .AbortWithError 500 err⟩
  | .ok usr =>
  let g := w.GetAll usr.Id false
  let t := t ++ [Call.GetAll usr.Id false g]
  match g with
  | .error err => ⟨t, .AbortWithError 500 err⟩
  | .ok sessions =>
  let l := removeSessions w sessions
  let t := t ++ l.1
  match l.2 with
  | some err => ⟨t, .AbortWithError 500 err⟩
  | none =>
  let t := t ++ [Call.IsValid authr (w.IsValid authr)]
  if w.IsValid authr then
    let r := w.AuthrRemove authr
    let t := t ++ [Call.AuthrRemove authr r]
    match r with
    | some err => ⟨t, .AbortWithError 500 err⟩
    | none => ⟨t, .Redirect 302 "/"⟩
  else
    ⟨t, .Redirect 302 "/"⟩

/-- Handler `authRequestGet` of `uhandlers/auth.go`. -/
def authRequestGet (w : World) (c : Context) : Outcome :=
  ⟨[Call.AuthRequest (w.AuthRequest c)], w.AuthRequest c⟩

/-- Handler `authCallbackGet` of `uhandlers/auth.go`. -/
def authCallbackGet (w : World) (c : Context) : Outcome :=
  let sig := c.Query "sig"
  let query := canonicalQuery c.Request.URL.RawQuery
  let res := w.Callback sig query
  let t := [Call.Callback sig query res]
  match res.err with
  | some err =>
    match err.type with
    | .InvalidState => ⟨t, .Redirect 302 "/"⟩
    | _ => ⟨t, .AbortWithError 500 err⟩
  | none =>
  match res.errData with
  | some errData => ⟨t, .JSON 401 (.errorData errData)⟩
  | none =>
  let usr := res.usr
  let tokn := res.tokn
  let v := w.ValidateUser usr false c.Request
  let t := t ++ [Call.ValidateUser usr false c.Request v]
  match v.err with
  | some err => ⟨t, .AbortWithError 500 err⟩
  | none =>
  match v.errData with
  | some errData =>
    let fields : Fields := [("error", errData.Error), ("message", errData.Message)]
    let a := w.AuditNew c.Request usr.Id .UserLoginFailed fields
    let t := t ++ [Call.AuditNew c.Request usr.Id .UserLoginFailed fields a]
    match a with
    | some err => ⟨t, .AbortWithError 500 err⟩
    | none => ⟨t, .JSON 401 (.errorData errData)⟩
  | none =>
  if v.deviceAuth then
    let n := w.SecondaryNew usr.Id .User DeviceProvider
    let t := t ++ [Call.SecondaryNew usr.Id .User DeviceProvider n]
    match n with
    | .error err => ⟨t, .AbortWithError 500 err⟩
    | .ok secd =>
    let d := w.GetData secd
    let t := t ++ [Call.GetData secd d]
    match d with
    | .error err => ⟨t, .AbortWithError 500 err⟩
    | .ok data => ⟨t, .JSON 201 (.secondaryData data)⟩
  else if v.secProviderId != "" then
    let n := w.SecondaryNew usr.Id .User v.secProviderId
    let t := t ++ [Call.SecondaryNew usr.Id .User v.secProviderId n]
    match n with
    | .error err => ⟨t, .AbortWithError 500 err⟩
    | .ok secd =>
    let q := w.GetQuery secd
    let t := t ++ [Call.GetQuery secd q]
    match q with
    | .error err => ⟨t, .AbortWithError 500 err⟩
    | .ok urlQuery =>
      if tokn.Query != "" then
        ⟨t, .Redirect 302 ("/login?" ++ (urlQuery ++ ("&" ++ tokn.Query)))⟩
      else
        ⟨t, .Redirect 302 ("/login?" ++ urlQuery)⟩
  else
  let fields : Fields := [("method", "sso")]
  let a := w.AuditNew c.Request usr.Id .UserLogin fields
  let t := t ++ [Call.AuditNew c.Request usr.Id .UserLogin fields a]
  match a with
  | some err => ⟨t, .AbortWithError 500 err⟩
  | none =>
  let cook := Cookie.User
  let s := w.NewSession cook c.Request usr.Id true .User
  let t := t ++ [Call.CookieNewUser, Call.NewSession cook c.Request usr.Id true .User s]
  match s with
  | some err => ⟨t, .AbortWithError 500 err⟩
  | none => ⟨t, .redirectQuery tokn.Query⟩

/-- Handler `authU2fAppGet` of `uhandlers/auth.go`. -/
def authU2fAppGet (w : World) (_c : Context) : Outcome :=
  ⟨[Call.GetFacets w.GetFacets], .JSON 200 (.facets w.GetFacets)⟩

/-- Handler `authU2fRegisterGet` of `uhandlers/auth.go`. -/
def authU2fRegisterGet (w : World) (c : Context) : Outcome :=
  match w.Blocked c with
  | some r => ⟨[Call.Blocked (some r)], r⟩
  | none =>
  let t := [Call.Blocked none]
  let authr := c.authorizer
  let u := w.AuthrGetUser authr
  let t := t ++ [Call.AuthrGetUser authr u]
  match u with
  | .error err => ⟨t, .AbortWithError 500 err⟩
  | .ok usr =>
  let n := w.SecondaryNew usr.Id .Register DeviceProvider
  let t := t ++ [Call.SecondaryNew usr.Id .Register DeviceProvider n]
  match n with
  | .error err => ⟨t, .AbortWithError 500 err⟩
  | .ok secd =>
  let r := w.DeviceRegisterRequest secd
  let t := t ++ [Call.DeviceRegisterRequest secd r]
  match r.err with
  | some err => ⟨t, .AbortWithError 500 err⟩
  | none =>
  match r.errData with
  | some errData => ⟨t, .JSON 400 (.errorData errData)⟩
  | none => ⟨t, .JSON 200 (.u2fRegisterRespData secd.Id r.resp)⟩

/-- Handler `authU2fRegisterPost` of `uhandlers/auth.go`. -/
def authU2fRegisterPost (w : World) (c : Context) : Outcome :=
  match w.Blocked c with
  | some r => ⟨[Call.Blocked (some r)], r⟩
  | none =>
  let t := [Call.Blocked none]
  let authr := c.authorizer
  match c.BindU2fRegisterData with
  | .error err => ⟨t, .AbortWithError 500 err⟩
  | .ok data =>
  let u := w.AuthrGetUser authr
  let t := t ++ [Call.AuthrGetUser authr u]
  match u with
  | .error err => ⟨t, .AbortWithError 500 err⟩
  | .ok usr =>
  let g := w.SecondaryGet data.Token .Register
  let t := t ++ [Call.SecondaryGet data.Token .Register g]
  match g with
  | .error err =>
    if err.type = .NotFoundError then
      ⟨t, .JSON 401 (.errorData secondaryExpired)⟩
    else
      ⟨t, .AbortWithError 500 err⟩
  | .ok secd =>
  let h := w.DeviceRegisterResponse secd data.Response
  let t := t ++ [Call.DeviceRegisterResponse secd data.Response h]
  match h.err with
  | some err => ⟨t, .AbortWithError 500 err⟩
  | none =>
  match h.errData with
  | some errData =>
    let fields : Fields := [("error", errData.Error), ("message", errData.Message)]
    let a := w.AuditNew c.Request usr.Id .UserDeviceRegisterFailed fields
    let t := t ++ [Call.AuditNew c.Request usr.Id .UserDeviceRegisterFailed fields a]
    match a with
    | some err => ⟨t, .AbortWithError 500 err⟩
    | none => ⟨t, .JSON 401 (.errorData errData)⟩
  | none =>
  let fields : Fields := [("method", "secondary")]
  let a := w.AuditNew c.Request usr.Id .UserDeviceRegister fields
  let t := t ++ [Call.AuditNew c.Request usr.Id .UserDeviceRegister fields a]
  match a with
  | some err => ⟨t, .AbortWithError 500 err⟩
  | none => ⟨t, .JSON 200 .nil⟩

/-- Handler `authU2fSignGet` of `uhandlers/auth.go`. -/
def authU2fSignGet (w : World) (c : Context) : Outcome :=
  let token := c.Query "token"
  let g := w.SecondaryGet token .User
  let t := [Call.SecondaryGet token .User g]
  match g with
  | .error err =>
    if err.type = .NotFoundError then
      ⟨t, .JSON 401 (.errorData secondaryExpired)⟩
    else
      ⟨t, .AbortWithError 500 err⟩
  | .ok secd =>
  let r := w.DeviceSignRequest secd
  let t := t ++ [Call.DeviceSignRequest secd r]
  match r.err with
  | some err => ⟨t, .AbortWithError 500 err⟩
  | none =>
  match r.errData with
  | some errData => ⟨t, .JSON 401 (.errorData errData)⟩
  | none => ⟨t, .JSON 200 (.signRequest r.resp)⟩

/-- Handler `authU2fSignPost` of `uhandlers/auth.go`.  The error data returned
by `secd.DeviceSignResponse` is assigned to `errData` and not read before the
validator's result is assigned to the same variable. -/
def authU2fSignPost (w : World) (c : Context) : Outcome :=
  match c.BindU2fSignData with
  | .error err => ⟨[], .AbortWithError 500 err⟩
  | .ok data =>
  let g := w.SecondaryGet data.Token .User
  let t := [Call.SecondaryGet data.Token .User g]
  match g with
  | .error err =>
    if err.type = .NotFoundError then
      ⟨t, .JSON 401 (.errorData secondaryExpired)⟩
    else
      ⟨t, .AbortWithError 500 err⟩
  | .ok secd =>
  let h := w.DeviceSignResponse secd data.Response
  let t := t ++ [Call.DeviceSignResponse secd data.Response h]
  match h.err with
  | some err => ⟨t, .AbortWithError 500 err⟩
  | none =>
  let u := w.GetUser secd
  let t := t ++ [Call.GetUser secd u]
  match u with
  | .error err => ⟨t, .AbortWithError 500 err⟩
  | .ok usr =>
  let v := w.ValidateUser usr false c.Request
  let t := t ++ [Call.ValidateUser usr false c.Request v]
  match v.err with
  | some err => ⟨t, .AbortWithError 500 err⟩
  | none =>
  match v.errData with
  | some errData =>
    let fields : Fields := [("error", errData.Error), ("message", errData.Message)]
    let a := w.AuditNew c.Request usr.Id .UserLoginFailed fields
    let t := t ++ [Call.AuditNew c.Request usr.Id .UserLoginFailed fields a]
    match a with
    | some err => ⟨t, .AbortWithError 500 err⟩
    | none => ⟨t, .JSON 401 (.errorData errData)⟩
  | none =>
  if v.secProviderId != "" then
    let n := w.SecondaryNew usr.Id .User v.secProviderId
    let t := t ++ [Call.SecondaryNew usr.Id .User v.secProviderId n]
    match n with
    | .error err => ⟨t, .AbortWithError 500 err⟩
    | .ok secd =>
    let d := w.GetData secd
    let t := t ++ [Call.GetData secd d]
    match d with
    | .error err => ⟨t, .AbortWithError 500 err⟩
    | .ok data => ⟨t, .JSON 201 (.secondaryData data)⟩
  else
  let fields : Fields := [("method", "secondary")]
  let a := w.AuditNew c.Request usr.Id .UserLogin fields
  let t := t ++ [Call.AuditNew c.Request usr.Id .UserLogin fields a]
  match a with
  | some err => ⟨t, .AbortWithError 500 err⟩
  | none =>
  let cook := Cookie.User
  let s := w.NewSession cook c.Request usr.Id true .User
  let t := t ++ [Call.CookieNewUser, Call.NewSession cook c.Request usr.Id true .User s]
  match s with
  | some err => ⟨t, .AbortWithError 500 err⟩
  | none => ⟨t, .redirectQueryJson c.Request.URL.RawQuery⟩

end uhandlers

/-! ## Routes -/

/-- The four handlers that can install a session, present on both surfaces. -/
inductive LoginHandler where
  | authSessionPost
  | authSecondaryPost
  | authCallbackGet
  | authU2fSignPost
deriving DecidableEq

/-- The administrator surface's login handlers. -/
def mhandlers.login : LoginHandler → World → Context → Outcome
  | .authSessionPost => mhandlers.authSessionPost
  | .authSecondaryPost => mhandlers.authSecondaryPost
  | .authCallbackGet => mhandlers.authCallbackGet
  | .authU2fSignPost => mhandlers.authU2fSignPost

/-- The user surface's login handlers. -/
def uhandlers.login : LoginHandler → World → Context → Outcome
  | .authSessionPost => uhandlers.authSessionPost
  | .authSecondaryPost => uhandlers.authSecondaryPost
  | .authCallbackGet => uhandlers.authCallbackGet
  | .authU2fSignPost => uhandlers.authU2fSignPost

/-- The two surfaces: package `mhandlers` for administrators, package
`uhandlers` for users. -/
inductive Surface where
  | admin
  | user
deriving DecidableEq

/-- The login handlers of a surface. -/
def Surface.login : Surface → LoginHandler → World → Context → Outcome
  | .admin => mhandlers.login
  | .user => uhandlers.login

/-- The audit kind a surface writes when it accepts a login. -/
def Surface.loginKind : Surface → AuditKind
  | .admin => .AdminLogin
  | .user => .UserLogin

/-- The audit kind a surface writes when the validator rejects a login. -/
def Surface.loginFailedKind : Surface → AuditKind
  | .admin => .AdminLoginFailed
  | .user => .UserLoginFailed

/-- The challenge scope of a surface's login flow. -/
def Surface.scope : Surface → SecondaryScope
  | .admin => .Admin
  | .user => .User

/-- The cookie binder of a surface. -/
def Surface.cookie : Surface → Cookie
  | .admin => .Admin
  | .user => .User

/-- The session scope of a surface. -/
def Surface.sessionScope : Surface → SessionScope
  | .admin => .Admin
  | .user => .User

/-- The call of a surface to its validator. -/
def Surface.validateCall : Surface → User → Bool → Request → ValidateResult → Call
  | .admin => Call.ValidateAdmin
  | .user => Call.ValidateUser

/-- The handlers of `mhandlers/auth.go`. -/
inductive mhandlers.Handler where
  | authStateGet
  | authSessionPost
  | authSecondaryPost
  | logoutGet
  | authRequestGet
  | authCallbackGet
  | authU2fSignGet
  | authU2fSignPost
deriving DecidableEq

/-- Run a handler of the administrator surface. -/
def mhandlers.Handler.run : mhandlers.Handler → World → Context → Outcome
  | .authStateGet => mhandlers.authStateGet
  | .authSessionPost => mhandlers.authSessionPost
  | .authSecondaryPost => mhandlers.authSecondaryPost
  | .logoutGet => mhandlers.logoutGet
  | .authRequestGet => mhandlers.authRequestGet
  | .authCallbackGet => mhandlers.authCallbackGet
  | .authU2fSignGet => mhandlers.authU2fSignGet
  | .authU2fSignPost => mhandlers.authU2fSignPost

/-- The handlers of `uhandlers/auth.go`. -/
inductive uhandlers.Handler where
  | authStateGet
  | authSessionPost
  | authSecondaryPost
  | logoutGet
  | logoutAllGet
  | authRequestGet
  | authCallbackGet
  | authU2fAppGet
  | authU2fRegisterGet
  | authU2fRegisterPost
  | authU2fSignGet
  | authU2fSignPost
deriving DecidableEq

/-- Run a handler of the user surface. -/
def uhandlers.Handler.run : uhandlers.Handler → World → Context → Outcome
  | .authStateGet => uhandlers.authStateGet
  | .authSessionPost => uhandlers.authSessionPost
  | .authSecondaryPost => uhandlers.authSecondaryPost
  | .logoutGet => uhandlers.logoutGet
  | .logoutAllGet => uhandlers.logoutAllGet
  | .authRequestGet => uhandlers.authRequestGet
  | .authCallbackGet => uhandlers.authCallbackGet
  | .authU2fAppGet => uhandlers.authU2fAppGet
  | .authU2fRegisterGet => uhandlers.authU2fRegisterGet
  | .authU2fRegisterPost => uhandlers.authU2fRegisterPost
  | .authU2fSignGet => uhandlers.authU2fSignGet
  | .authU2fSignPost => uhandlers.authU2fSignPost

/-- A handler of either surface. -/
inductive Route where
  | admin (h : mhandlers.Handler)
  | user (h : uhandlers.Handler)
deriving DecidableEq

/-- Run a handler of either surface. -/
def Route.run : Route → World → Context → Outcome
  | .admin h => h.run
  | .user h => h.run

/-! ## Properties of traces -/

/-- Whether a call is `audit.New` with the kind `typ`. -/
def Call.isAuditOf (typ : AuditKind) : Call → Bool
  | .AuditNew _ _ k _ _ => decide (k = typ)
  | _ => false

/-- Whether a call is `audit.New`, of any kind. -/
def Call.isAuditNew : Call → Bool
  | .AuditNew _ _ _ _ _ => true
  | _ => false

/-- Whether a call is `cook.NewSession`, whatever it returned. -/
def Call.isNewSession : Call → Bool
  | .NewSession _ _ _ _ _ _ => true
  | _ => false

/-- Whether a call is `cook.NewSession` returning no error: a session was
installed. -/
def Call.installsSession : Call → Bool
  | .NewSession _ _ _ _ _ none => true
  | _ => false

/-- Whether a call is `secondary.New`. -/
def Call.isSecondaryNew : Call → Bool
  | .SecondaryNew _ _ _ _ => true
  | _ => false

/-- Whether a call is `validator.ValidateAdmin` or `validator.ValidateUser`. -/
def Call.isValidate : Call → Bool
  | .ValidateAdmin _ _ _ _ => true
  | .ValidateUser _ _ _ _ => true
  | _ => false

/-- A `NewSession` call made after the calls `pre` has before it exactly one
`audit.New` call of kind `typ`, and that one is for the same request and user
id and returned no error.  Other calls are not constrained. -/
def Call.auditedAfter (typ : AuditKind) (pre : List Call) : Call → Prop
  | .NewSession _ r userId _ _ _ =>
    ∃ fields, pre.filter (Call.isAuditOf typ) = [Call.AuditNew r userId typ fields none]
  | _ => True

/-- Every call of the trace `t`, read after the calls `pre`, satisfies
`Call.auditedAfter` with respect to the calls before it. -/
def auditedFrom (typ : AuditKind) : List Call → List Call → Prop
  | _, [] => True
  | pre, call :: rest => call.auditedAfter typ pre ∧ auditedFrom typ (pre ++ [call]) rest

/-- Whether a call comes after the challenge lookup in the handlers that look
a challenge up by token: the challenge handler, the device verifier, the
challenge's user, the validator, the audit writer, a new challenge and the
cookie binder. -/
def Call.followsLookup : Call → Bool
  | .Handle _ _ _ _ _ => true
  | .GetUser _ _ => true
  | .DeviceSignRequest _ _ => true
  | .DeviceSignResponse _ _ _ => true
  | .DeviceRegisterRequest _ _ => true
  | .DeviceRegisterResponse _ _ _ => true
  | .ValidateAdmin _ _ _ _ => true
  | .ValidateUser _ _ _ _ => true
  | .AuditNew _ _ _ _ _ => true
  | .SecondaryNew _ _ _ _ => true
  | .GetData _ _ => true
  | .GetQuery _ _ => true
  | .CookieNewAdmin => true
  | .CookieNewUser => true
  | .NewSession _ _ _ _ _ _ => true
  | _ => false

/-- No callee used after the validator fails: every audit write, challenge
creation, descriptor or query read and session creation returns without
error. -/
def World.succeeds (w : World) : Prop :=
  (∀ r userId typ fields, w.AuditNew r userId typ fields = none) ∧
  (∀ userId typ providerId err, w.SecondaryNew userId typ providerId ≠ .error err) ∧
  (∀ secd err, w.GetData secd ≠ .error err) ∧
  (∀ secd err, w.GetQuery secd ≠ .error err) ∧
  (∀ cook r userId remember typ, w.NewSession cook r userId remember typ = none)

/-- The check of one outcome for "no session on a failure": no call of the
trace installs a session, or the status is neither 401 nor 500. -/
def Outcome.failsClosed (o : Outcome) : Bool :=
  o.trace.all (fun call => !call.installsSession) ||
    !(o.response.statusCode == 401 || o.response.statusCode == 500)

/-! ## A concrete world -/

/-- A request with the query `next=%2Fapp`. -/
def sampleRequest : Request :=
  { URL := { RawQuery := "next=%2Fapp" }, Descriptor := "198.51.100.7" }

/-- A context in which every body binds: user `alice`, challenge token `tok1`. -/
def sampleContext : Context :=
  { Request := sampleRequest
    Query := fun key => if key = "token" then "tok1" else if key = "sig" then "s1" else ""
    BindAuthData := .ok { Username := "alice", Password := "pw" }
    BindSecondaryData := .ok { Token := "tok1", Factor := "totp", Passcode := "000000" }
    BindU2fSignData := .ok { Token := "tok1", Response := "resp" }
    BindU2fRegisterData := .ok { Token := "tok1", Response := "resp" }
    authorizer := { sess := some { Id := "s1", User := "u1" } } }

/-- A world in which every callee succeeds and the validators accept. -/
def sampleWorld : World :=
  { GetState := []
    IsDemo := false
    Blocked := fun _ => none
    Local := fun username _ => ⟨⟨"u1", username⟩, none, none⟩
    AuthRequest := fun _ => .written 302 "idp"
    Callback := fun _ _ => ⟨⟨"u1", "alice"⟩, ⟨"next=%2Fapp"⟩, none, none⟩
    ValidateAdmin := fun _ _ _ => ⟨false, "", none, none⟩
    ValidateUser := fun _ _ _ => ⟨false, "", none, none⟩
    AuditNew := fun _ _ _ _ => none
    SecondaryNew := fun userId typ providerId => .ok ⟨"tok2", userId, typ, providerId⟩
    SecondaryGet := fun token typ => .ok ⟨token, "u1", typ, DeviceProvider⟩
    GetData := fun secd => .ok secd.Id
    GetQuery := fun secd => .ok ("secondary=" ++ secd.Id)
    Handle := fun _ _ _ _ => ⟨none, none⟩
    GetUser := fun secd => .ok ⟨secd.UserId, "alice"⟩
    DeviceSignRequest := fun _ => ⟨"challenge", none, none⟩
    DeviceSignResponse := fun _ _ => ⟨none, none⟩
    DeviceRegisterRequest := fun _ => ⟨"challenge", none, none⟩
    DeviceRegisterResponse := fun _ _ => ⟨none, none⟩
    NewSession := fun _ _ _ _ _ => none
    IsValid := fun authr => authr.sess.isSome
    AuthrRemove := fun _ => none
    AuthrGetUser := fun _ => .ok ⟨"u1", "alice"⟩
    GetAll := fun _ _ => .ok []
    SessionRemove := fun _ => none
    GetFacets := "facets" }

/-- An error of a type the handlers do not single out. -/
def otherError : GoError := { type := .Other, text := "database: unknown error" }

/-- The error of type `*database.NotFoundError`. -/
def notFoundError : GoError := { type := .NotFoundError, text := "database: not found" }

/-- Error data of a failed verification or a policy rejection. -/
def sampleErrorData : ErrorData := { Error := "unauthorized", Message := "Not authorized" }

/-- The handlers that look a challenge up by its token. -/
def lookupRoutes : List Route :=
  [.admin .authSecondaryPost, .admin .authU2fSignGet, .admin .authU2fSignPost,
    .user .authSecondaryPost, .user .authU2fSignGet, .user .authU2fSignPost,
    .user .authU2fRegisterPost]

/-- The validator of a surface. -/
def Surface.validate : Surface → World → User → Bool → Request → ValidateResult
  | .admin, w => w.ValidateAdmin
  | .user, w => w.ValidateUser

/-- The call that makes the cookie binder of a surface. -/
def Surface.cookieNewCall : Surface → Call
  | .admin => .CookieNewAdmin
  | .user => .CookieNewUser

/-! ## Worlds and contexts of the examples -/

/-- A world in which the cookie binder fails to create the session. -/
def sessionFailsWorld : World :=
  { sampleWorld with NewSession := fun _ _ _ _ _ => some otherError }

/-- A world in which the device verifier rejects the sign response: it returns
error data and no error. -/
def deviceRejectsWorld : World :=
  { sampleWorld with DeviceSignResponse := fun _ _ => ⟨some sampleErrorData, none⟩ }

/-- A world in which `auth.Local` rejects the credentials: it returns error
data and no error. -/
def localRejectsWorld : World :=
  { sampleWorld with Local := fun username _ => ⟨⟨"", username⟩, some sampleErrorData, none⟩ }

/-- A world in which both validators reject, and also ask for a device and for
the provider `duo`. -/
def rejectWorld : World :=
  { sampleWorld with
    ValidateAdmin := fun _ _ _ => ⟨true, "duo", some sampleErrorData, none⟩
    ValidateUser := fun _ _ _ => ⟨true, "duo", some sampleErrorData, none⟩ }

/-- A world in which `auth.Callback` fails with an error of type
`*auth.InvalidState`. -/
def invalidStateWorld : World :=
  { sampleWorld with
    Callback := fun _ _ => ⟨⟨"", ""⟩, ⟨""⟩, none, some ⟨.InvalidState, "auth: invalid state"⟩⟩ }

/-- A context whose raw query ends with the signature parameter. -/
def callbackContext : Context :=
  { sampleContext with
    Request := { URL := { RawQuery := "state=xyz&sig=abc" }, Descriptor := "198.51.100.7" } }

/-- A world in which `secondary.Get` finds no challenge. -/
def expiredWorld : World :=
  { sampleWorld with SecondaryGet := fun _ _ => .error notFoundError }

/-- A world in which `audit.New` fails. -/
def auditFailsWorld : World :=
  { sampleWorld with AuditNew := fun _ _ _ _ => some otherError }

/-- A world in which both validators fail with an error. -/
def validatorFailsWorld : World :=
  { sampleWorld with
    ValidateAdmin := fun _ _ _ => ⟨false, "", none, some otherError⟩
    ValidateUser := fun _ _ _ => ⟨false, "", none, some otherError⟩ }

/-- A world in which both validators reject and `audit.New` fails. -/
def rejectAuditFailsWorld : World :=
  { rejectWorld with AuditNew := fun _ _ _ _ => some otherError }

/-- A world in which both validators ask for the provider `duo`. -/
def providerWorld : World :=
  { sampleWorld with
    ValidateAdmin := fun _ _ _ => ⟨false, "duo", none, none⟩
    ValidateUser := fun _ _ _ => ⟨false, "duo", none, none⟩ }

/-- A world in which both validators ask for the provider `duo` and
`secondary.New` fails. -/
def challengeFailsWorld : World :=
  { providerWorld with SecondaryNew := fun _ _ _ => .error otherError }

/-- A world in which both validators ask for the provider `duo` and
`secd.GetData` fails. -/
def descriptorFailsWorld : World :=
  { providerWorld with GetData := fun _ => .error otherError }

/-- A world in which `secd.Handle` reports a factor still in progress. -/
def incompleteWorld : World :=
  { sampleWorld with
    Handle := fun _ _ _ _ => ⟨none, some ⟨.IncompleteError, "secondary: incomplete"⟩⟩ }

/-! ## The register flow -/

/-- Whether a call, if it is `secondary.New`, opens a challenge of the scope
`Register` for the provider `DeviceProvider`. -/
def Call.opensRegister : Call → Bool
  | .SecondaryNew _ typ providerId _ => typ == .Register && providerId == DeviceProvider
  | _ => true

/-- Whether a call, if it is `secondary.Get`, looks the challenge up with the
scope `Register`. -/
def Call.looksUpRegister : Call → Bool
  | .SecondaryGet _ typ _ => typ == .Register
  | _ => true

/-- A world in which the device verifier rejects the register response: it
returns error data and no error. -/
def registerRejectsWorld : World :=
  { sampleWorld with DeviceRegisterResponse := fun _ _ => ⟨some sampleErrorData, none⟩ }

/-! ## A model session store -/

/-- Modelled from the spec: the session store of package `session`, which is
not among the embedded files, as the list of the session records it holds. -/
abbrev Store := List Session

/-- Modelled from the spec: `sess.Remove(db)` deletes the record of the
session, found by its id; deleting a record that is absent changes nothing. -/
def Store.remove (st : Store) (sess : Session) : Store :=
  st.filter (fun s => s.Id != sess.Id)

/-- Modelled from the spec: `session.GetAll(db, userId, false)` lists the
sessions of the user that the store holds. -/
def Store.getAll (st : Store) (userId : ObjectId) : List Session :=
  st.filter (fun s => s.User == userId)

/-- The effect of one call on the store: a `sess.Remove` that returns without
error deletes the session, an `authr.Remove` that returns without error
deletes the session of the authorizer, and no other call of the handlers
writes to the store. -/
def Store.apply (st : Store) : Call → Store
  | .SessionRemove sess none => st.remove sess
  | .AuthrRemove authr none =>
    match authr.sess with
    | some sess => st.remove sess
    | none => st
  | _ => st

/-- The store after the calls of a trace, in order. -/
def Store.run (st : Store) (t : List Call) : Store :=
  t.foldl Store.apply st

/-- Modelled from the spec: the callees over the store `st`.  `session.GetAll`,
when it returns without error, lists the user's sessions in `st`; which calls
fail is left to `w`; demo mode, which the spec leaves out of scope, is off. -/
def World.onStore (w : World) (st : Store) : World :=
  { w with
    Blocked := fun _ => none
    GetAll := fun userId includeRemoved =>
      match w.GetAll userId includeRemoved with
      | .error err => .error err
      | .ok _ => .ok (st.getAll userId) }

/-- One request `GET /logout_all` on the store `st`: the response of
`logoutAllGet` and the store after its calls.  The handler reads the store
(`session.GetAll`) before its first write, so the results of `w.onStore st` are
those of the store at the time of each call. -/
def logoutAll (w : World) (c : Context) (st : Store) : Response × Store :=
  ((uhandlers.logoutAllGet (w.onStore st) c).response,
    st.run (uhandlers.logoutAllGet (w.onStore st) c).trace)

/-- A store with two sessions of the user `u1` and one of the user `u2`. -/
def sampleStore : Store :=
  [{ Id := "s1", User := "u1" }, { Id := "s2", User := "u2" }, { Id := "s3", User := "u1" }]

/-! ## The two surfaces compared -/

/-- The four handlers that the claim of one engine compares. -/
inductive EngineHandler where
  | authSessionPost
  | authSecondaryPost
  | authU2fSignGet
  | authU2fSignPost
deriving DecidableEq

/-- The administrator surface's handler of the name. -/
def EngineHandler.admin : EngineHandler → World → Context → Outcome
  | .authSessionPost => mhandlers.authSessionPost
  | .authSecondaryPost => mhandlers.authSecondaryPost
  | .authU2fSignGet => mhandlers.authU2fSignGet
  | .authU2fSignPost => mhandlers.authU2fSignPost

/-- The user surface's handler of the name. -/
def EngineHandler.user : EngineHandler → World → Context → Outcome
  | .authSessionPost => uhandlers.authSessionPost
  | .authSecondaryPost => uhandlers.authSecondaryPost
  | .authU2fSignGet => uhandlers.authU2fSignGet
  | .authU2fSignPost => uhandlers.authU2fSignPost

/-- Renaming of the challenge scope: `secondary.Admin` to `secondary.User`. -/
def SecondaryScope.toUser : SecondaryScope → SecondaryScope
  | .Admin => .User
  | .User => .User
  | .Register => .Register

/-- Renaming of the audit kind: `AdminLogin` to `UserLogin`, `AdminLoginFailed`
to `UserLoginFailed`. -/
def AuditKind.toUser : AuditKind → AuditKind
  | .AdminLogin => .UserLogin
  | .AdminLoginFailed => .UserLoginFailed
  | .UserLogin => .UserLogin
  | .UserLoginFailed => .UserLoginFailed
  | .UserDeviceRegister => .UserDeviceRegister
  | .UserDeviceRegisterFailed => .UserDeviceRegisterFailed

/-- Renaming of the cookie binder: `cookie.NewAdmin` to `cookie.NewUser`. -/
def Cookie.toUser : Cookie → Cookie
  | .Admin => .User
  | .User => .User

/-- Renaming of the session scope: `session.Admin` to `session.User`. -/
def SessionScope.toUser : SessionScope → SessionScope
  | .Admin => .User
  | .User => .User

/-- Renaming of the role parameters in a call; the results are kept. -/
def Call.toUser : Call → Call
  | .ValidateAdmin usr isApi r res => .ValidateUser usr isApi r res
  | .AuditNew r userId typ fields res => .AuditNew r userId typ.toUser fields res
  | .SecondaryNew userId typ providerId res => .SecondaryNew userId typ.toUser providerId res
  | .SecondaryGet token typ res => .SecondaryGet token typ.toUser res
  | .CookieNewAdmin => .CookieNewUser
  | .NewSession cook r userId remember typ res =>
    .NewSession cook.toUser r userId remember typ.toUser res
  | call => call

/-- The world in which a callee given administrator parameters returns what
it returns in `w` for the renamed parameters. -/
def World.asAdmin (w : World) : World :=
  { w with
    ValidateAdmin := w.ValidateUser
    AuditNew := fun r userId typ fields => w.AuditNew r userId typ.toUser fields
    SecondaryNew := fun userId typ providerId => w.SecondaryNew userId typ.toUser providerId
    SecondaryGet := fun token typ => w.SecondaryGet token typ.toUser
    NewSession := fun cook r userId remember typ =>
      w.NewSession cook.toUser r userId remember typ.toUser }

/-- The comparison of the outcome `a` of an administrator handler with the
outcome `u` of the user handler for the request of raw query `RawQuery`: the
traces agree after the renaming; where a session is installed the
administrator's response is the status 200 and the user's is the redirect built
from the raw query; elsewhere the responses are equal. -/
def sameEngine (RawQuery : String) (a u : Outcome) : Prop :=
  u.trace = a.trace.map Call.toUser ∧
  (a.trace.any Call.installsSession = true →
    a.response = .Status 200 ∧ u.response = .redirectQueryJson RawQuery) ∧
  (a.trace.any Call.installsSession = false → u.response = a.response)

/-! ## Package `search` -/

namespace search

/-- Function `hashAddresses` of `search/search.go`.  The hash object made by
`md5.New()` is the text written to it so far, `io.WriteString` appends to it,
and `hash.Sum(nil)` is the digest `md5` of the text written. -/
def hashAddresses {H : Type} (md5 : String → H) (addrs : List String) : H :=
  md5 (addrs.foldl (fun written addr => written ++ addr) "")

/-- One pass of the loop of `watchSearch`, for the hash kept from the pass
before and the addresses `settings.Elastic.Addresses` read in this pass: the
calls of `update` made in the pass, and the hash kept for the next pass.
`update` is given by its result; the sleeps are left out. -/
def watchSearchPass {H : Type} [DecidableEq H] (md5 : String → H)
    (update : List String → Option GoError) (hash : H) (addrs : List String) :
    List (List String) × H :=
  let newHash := hashAddresses md5 addrs
  if hash ≠ newHash then
    match update addrs with
    | some _ => ([addrs], hash)
    | none => ([addrs], newHash)
  else
    ([], hash)

end search

/-- A world in which the challenge found by a token belongs to the user
`u9`. -/
def otherUserWorld : World :=
  { sampleWorld with SecondaryGet := fun token typ => .ok ⟨token, "u9", typ, DeviceProvider⟩ }

/-- The outcome `o` of a login handler follows the validator: `first` is the
call that resolved the principal `usr`, `r` the request and `v` the result of
the validator for `usr`.  The validator call comes right after `first`, and
(1) on reject data the trace ends with the audit of kind `<role>-login-failed`
with the fields `error` and `message` of the reject, and the response is 401
with the reject data, whatever the other two values are;
(2) else, if `deviceAuth` is true, the trace ends with a challenge opened for
the user, the surface's scope and `DeviceProvider`, whatever `secProviderId`
is, and its descriptor, which the response carries with status 201;
(3) else, if `secProviderId` is not empty, the trace ends with a challenge
opened for the user, the surface's scope and that provider id, and the read of
its descriptor or of its query;
(4) else the trace ends with the audit of kind `<role>-login`, the cookie
binder and a `NewSession` call for the user that returns without error. -/
def Surface.followsValidator (s : Surface) (r : Request) (first : Call) (usr : User)
    (v : ValidateResult) (o : Outcome) : Prop :=
  (∀ reject, v.errData = some reject →
    o.trace = [first, s.validateCall usr false r v,
      Call.AuditNew r usr.Id s.loginFailedKind
        [("error", reject.Error), ("message", reject.Message)] none] ∧
    o.response = .JSON 401 (.errorData reject)) ∧
  (v.errData = none → v.deviceAuth = true →
    ∃ secd data,
      o.trace = [first, s.validateCall usr false r v,
        Call.SecondaryNew usr.Id s.scope DeviceProvider (.ok secd),
        Call.GetData secd (.ok data)] ∧
      o.response = .JSON 201 (.secondaryData data)) ∧
  (v.errData = none → v.deviceAuth = false → v.secProviderId ≠ "" →
    ∃ secd last,
      o.trace = [first, s.validateCall usr false r v,
        Call.SecondaryNew usr.Id s.scope v.secProviderId (.ok secd), last] ∧
      ((∃ data, last = Call.GetData secd (.ok data)) ∨
        (∃ urlQuery, last = Call.GetQuery secd (.ok urlQuery)))) ∧
  (v.errData = none → v.deviceAuth = false → v.secProviderId = "" →
    ∃ fields,
      o.trace = [first, s.validateCall usr false r v,
        Call.AuditNew r usr.Id s.loginKind fields none, s.cookieNewCall,
        Call.NewSession s.cookie r usr.Id true s.sessionScope none])

/-! # Theorems -/

set_option maxHeartbeats 4000000

/-! ## Lemmas on traces -/

/-- The recursive check `auditedFrom` says what it is meant to: wherever the
trace splits around a `NewSession` call, the calls before it hold exactly one
audit of the kind, which is for the same request and user and succeeded. -/
theorem auditedFrom_iff (typ : AuditKind) (t pre : List Call) :
    auditedFrom typ pre t ↔
      ∀ (before after : List Call) cook r userId remember scope res,
        t = before ++ Call.NewSession cook r userId remember scope res :: after →
        ∃ fields, (pre ++ before).filter (Call.isAuditOf typ)
          = [Call.AuditNew r userId typ fields none] := by
  induction t generalizing pre with
  | nil => simp [auditedFrom]
  | cons call rest ih =>
    rw [auditedFrom, ih]
    constructor
    · rintro ⟨h1, h2⟩ before after cook r userId remember scope res heq
      cases before with
      | nil =>
        simp only [List.nil_append, List.cons.injEq] at heq
        obtain ⟨rfl, rfl⟩ := heq
        simpa [Call.auditedAfter] using h1
      | cons b bs =>
        simp only [List.cons_append, List.cons.injEq] at heq
        obtain ⟨rfl, rfl⟩ := heq
        have := h2 bs after cook r userId remember scope res rfl
        simpa using this
    · intro h
      constructor
      · cases call <;> try trivial
        rename_i cook r userId remember scope res
        simpa [Call.auditedAfter] using h [] rest cook r userId remember scope res rfl
      · intro before after cook r userId remember scope res heq
        have := h (call :: before) after cook r userId remember scope res (by simp [heq])
        simpa using this

/-- The login handlers of the administrator surface pass the recursive check. -/
theorem admin_login_audited (h : LoginHandler) (w : World) (c : Context) :
    auditedFrom .AdminLogin [] (mhandlers.login h w c).trace := by
  cases h <;>
    simp only [mhandlers.login, mhandlers.authSessionPost, mhandlers.authSecondaryPost,
      mhandlers.authCallbackGet, mhandlers.authU2fSignPost]
  all_goals repeat' split
  all_goals simp_all [auditedFrom, Call.auditedAfter, Call.isAuditOf, List.filter]

/-- The login handlers of the user surface pass the recursive check. -/
theorem user_login_audited (h : LoginHandler) (w : World) (c : Context) :
    auditedFrom .UserLogin [] (uhandlers.login h w c).trace := by
  cases h <;>
    simp only [uhandlers.login, uhandlers.authSessionPost, uhandlers.authSecondaryPost,
      uhandlers.authCallbackGet, uhandlers.authU2fSignPost]
  all_goals repeat' split
  all_goals simp_all [auditedFrom, Call.auditedAfter, Call.isAuditOf, List.filter]

/-- The loop of `logoutAllGet` calls `sess.Remove` and nothing else. -/
theorem uhandlers.removeSessions_calls (w : World) (sessions : List Session) :
    ∀ call ∈ (uhandlers.removeSessions w sessions).1, ∃ sess res, call = Call.SessionRemove sess res := by
  induction sessions with
  | nil => simp [uhandlers.removeSessions]
  | cons sess rest ih =>
    intro call hc
    rw [uhandlers.removeSessions] at hc
    split at hc
    · simp only [List.mem_singleton] at hc
      exact ⟨_, _, hc⟩
    · simp only [List.mem_cons] at hc
      rcases hc with rfl | hc
      · exact ⟨_, _, rfl⟩
      · exact ih call hc

/-- What the check `Outcome.failsClosed` says: an outcome with status 401 or
500 holds no call that installs a session. -/
theorem Outcome.failsClosed_spec (o : Outcome) (h : o.failsClosed = true)
    (hs : o.response.statusCode = 401 ∨ o.response.statusCode = 500) :
    ∀ call ∈ o.trace, call.installsSession = false := by
  intro call hc
  simp only [Outcome.failsClosed, Bool.or_eq_true, List.all_eq_true, Bool.not_eq_true',
    Bool.or_eq_false_iff, beq_eq_false_iff_ne, ne_eq] at h
  rcases h with h | h
  · exact h call hc
  · rcases hs with hs | hs
    · exact absurd hs h.1
    · exact absurd hs h.2

/-- Handler `mhandlers.authStateGet` passes the check `Outcome.failsClosed`. -/
theorem admin_authStateGet_failsClosed (w : World) (c : Context) :
    (mhandlers.authStateGet w c).failsClosed = true := by
  simp only [mhandlers.authStateGet]
  repeat' split
  all_goals rfl

/-- Handler `mhandlers.authSessionPost` passes the check `Outcome.failsClosed`. -/
theorem admin_authSessionPost_failsClosed (w : World) (c : Context) :
    (mhandlers.authSessionPost w c).failsClosed = true := by
  simp only [mhandlers.authSessionPost]
  repeat' split
  all_goals try rfl
  all_goals
    simp only [*]
    rfl

/-- Handler `mhandlers.authSecondaryPost` passes the check `Outcome.failsClosed`. -/
theorem admin_authSecondaryPost_failsClosed (w : World) (c : Context) :
    (mhandlers.authSecondaryPost w c).failsClosed = true := by
  simp only [mhandlers.authSecondaryPost]
  repeat' split
  all_goals try rfl
  all_goals
    simp only [*]
    rfl

/-- Handler `mhandlers.logoutGet` passes the check `Outcome.failsClosed`. -/
theorem admin_logoutGet_failsClosed (w : World) (c : Context) :
    (mhandlers.logoutGet w c).failsClosed = true := by
  simp only [mhandlers.logoutGet]
  repeat' split
  all_goals rfl

/-- Handler `mhandlers.authRequestGet` passes the check `Outcome.failsClosed`. -/
theorem admin_authRequestGet_failsClosed (w : World) (c : Context) :
    (mhandlers.authRequestGet w c).failsClosed = true := by
  rfl

/-- Handler `mhandlers.authCallbackGet` passes the check `Outcome.failsClosed`. -/
theorem admin_authCallbackGet_failsClosed (w : World) (c : Context) :
    (mhandlers.authCallbackGet w c).failsClosed = true := by
  simp only [mhandlers.authCallbackGet]
  repeat' split
  all_goals try rfl
  all_goals
    simp only [*]
    rfl

/-- Handler `mhandlers.authU2fSignGet` passes the check `Outcome.failsClosed`. -/
theorem admin_authU2fSignGet_failsClosed (w : World) (c : Context) :
    (mhandlers.authU2fSignGet w c).failsClosed = true := by
  simp only [mhandlers.authU2fSignGet]
  repeat' split
  all_goals rfl

/-- Handler `mhandlers.authU2fSignPost` passes the check `Outcome.failsClosed`. -/
theorem admin_authU2fSignPost_failsClosed (w : World) (c : Context) :
    (mhandlers.authU2fSignPost w c).failsClosed = true := by
  simp only [mhandlers.authU2fSignPost]
  repeat' split
  all_goals try rfl
  all_goals
    simp only [*]
    rfl

/-- Handler `uhandlers.authStateGet` passes the check `Outcome.failsClosed`. -/
theorem user_authStateGet_failsClosed (w : World) (c : Context) :
    (uhandlers.authStateGet w c).failsClosed = true := by
  simp only [uhandlers.authStateGet]
  repeat' split
  all_goals rfl

/-- Handler `uhandlers.authSessionPost` passes the check `Outcome.failsClosed`. -/
theorem user_authSessionPost_failsClosed (w : World) (c : Context) :
    (uhandlers.authSessionPost w c).failsClosed = true := by
  simp only [uhandlers.authSessionPost]
  repeat' split
  all_goals try rfl
  all_goals
    simp only [*]
    rfl

/-- Handler `uhandlers.authSecondaryPost` passes the check `Outcome.failsClosed`. -/
theorem user_authSecondaryPost_failsClosed (w : World) (c : Context) :
    (uhandlers.authSecondaryPost w c).failsClosed = true := by
  simp only [uhandlers.authSecondaryPost]
  repeat' split
  all_goals try rfl
  all_goals
    simp only [*]
    rfl

/-- Handler `uhandlers.logoutGet` passes the check `Outcome.failsClosed`. -/
theorem user_logoutGet_failsClosed (w : World) (c : Context) :
    (uhandlers.logoutGet w c).failsClosed = true := by
  simp only [uhandlers.logoutGet]
  repeat' split
  all_goals rfl

/-- Handler `uhandlers.authRequestGet` passes the check `Outcome.failsClosed`. -/
theorem user_authRequestGet_failsClosed (w : World) (c : Context) :
    (uhandlers.authRequestGet w c).failsClosed = true := by
  rfl

/-- Handler `uhandlers.authCallbackGet` passes the check `Outcome.failsClosed`. -/
theorem user_authCallbackGet_failsClosed (w : World) (c : Context) :
    (uhandlers.authCallbackGet w c).failsClosed = true := by
  simp only [uhandlers.authCallbackGet]
  repeat' split
  all_goals try rfl
  all_goals
    simp only [*]
    rfl

/-- Handler `uhandlers.authU2fAppGet` passes the check `Outcome.failsClosed`. -/
theorem user_authU2fAppGet_failsClosed (w : World) (c : Context) :
    (uhandlers.authU2fAppGet w c).failsClosed = true := by
  rfl

/-- Handler `uhandlers.authU2fRegisterGet` passes the check `Outcome.failsClosed`. -/
theorem user_authU2fRegisterGet_failsClosed (w : World) (c : Context) :
    (uhandlers.authU2fRegisterGet w c).failsClosed = true := by
  simp only [uhandlers.authU2fRegisterGet]
  repeat' split
  all_goals rfl

/-- Handler `uhandlers.authU2fRegisterPost` passes the check `Outcome.failsClosed`. -/
theorem user_authU2fRegisterPost_failsClosed (w : World) (c : Context) :
    (uhandlers.authU2fRegisterPost w c).failsClosed = true := by
  simp only [uhandlers.authU2fRegisterPost]
  repeat' split
  all_goals rfl

/-- Handler `uhandlers.authU2fSignGet` passes the check `Outcome.failsClosed`. -/
theorem user_authU2fSignGet_failsClosed (w : World) (c : Context) :
    (uhandlers.authU2fSignGet w c).failsClosed = true := by
  simp only [uhandlers.authU2fSignGet]
  repeat' split
  all_goals rfl

/-- Handler `uhandlers.authU2fSignPost` passes the check `Outcome.failsClosed`. -/
theorem user_authU2fSignPost_failsClosed (w : World) (c : Context) :
    (uhandlers.authU2fSignPost w c).failsClosed = true := by
  simp only [uhandlers.authU2fSignPost]
  repeat' split
  all_goals try rfl
  all_goals
    simp only [*]
    rfl

/-- The loop of `logoutAllGet` installs no session. -/
theorem uhandlers.removeSessions_no_session (w : World) (sessions : List Session) :
    (uhandlers.removeSessions w sessions).1.all (fun call => !call.installsSession) = true := by
  rw [List.all_eq_true]
  intro call hc
  obtain ⟨sess, res, rfl⟩ := uhandlers.removeSessions_calls w sessions call hc
  rfl

/-- Handler `uhandlers.logoutAllGet` installs no session. -/
theorem uhandlers.logoutAllGet_no_session (w : World) (c : Context) :
    ∀ call ∈ (uhandlers.logoutAllGet w c).trace, call.installsSession = false := by
  have hloop := uhandlers.removeSessions_no_session w
  have key : (uhandlers.logoutAllGet w c).trace.all (fun call => !call.installsSession)
      = true := by
    simp only [uhandlers.logoutAllGet]
    repeat' split
    all_goals try rfl
    all_goals
      simp only [List.all_append, hloop, Bool.and_true, Bool.true_and]
      rfl
  intro call hc
  have := List.all_eq_true.mp key call hc
  simpa using this

/-! ## Audit before session, and no session on a failure -/

/-- C1: in every login handler (`authSessionPost`, `authSecondaryPost`,
`authCallbackGet`, `authU2fSignPost`) of either surface, for all results of the
callees, wherever the trace holds a `NewSession` call, the calls before it hold
exactly one `audit.New` call of the surface's success kind (`AdminLogin` or
`UserLogin`); that audit call is for the same request and the same user id as
the `NewSession` call and it returned no error. -/
theorem audit_before_session (s : Surface) (h : LoginHandler) (w : World) (c : Context)
    (before after : List Call) (cook : Cookie) (r : Request) (userId : ObjectId)
    (remember : Bool) (typ : SessionScope) (res : Option GoError)
    (ht : (s.login h w c).trace
      = before ++ Call.NewSession cook r userId remember typ res :: after) :
    ∃ fields, before.filter (Call.isAuditOf s.loginKind)
      = [Call.AuditNew r userId s.loginKind fields none] := by
  cases s
  · have key := (auditedFrom_iff _ _ _).mp (admin_login_audited h w c)
      before after cook r userId remember typ res ht
    simpa [Surface.loginKind] using key
  · have key := (auditedFrom_iff _ _ _).mp (user_login_audited h w c)
      before after cook r userId remember typ res ht
    simpa [Surface.loginKind] using key

/-- The user surface's `authU2fSignPost` in the sample world: the trace ends
with a `NewSession` call, and the calls before it hold the one `UserLogin`
audit for the user `u1`. -/
theorem audit_before_session_witness :
    (Surface.user.login .authU2fSignPost sampleWorld sampleContext).trace
      = [Call.SecondaryGet "tok1" .User (.ok ⟨"tok1", "u1", .User, DeviceProvider⟩),
          Call.DeviceSignResponse ⟨"tok1", "u1", .User, DeviceProvider⟩ "resp" ⟨none, none⟩,
          Call.GetUser ⟨"tok1", "u1", .User, DeviceProvider⟩ (.ok ⟨"u1", "alice"⟩),
          Call.ValidateUser ⟨"u1", "alice"⟩ false sampleRequest ⟨false, "", none, none⟩,
          Call.AuditNew sampleRequest "u1" .UserLogin [("method", "secondary")] none,
          Call.CookieNewUser]
        ++ Call.NewSession .User sampleRequest "u1" true .User none :: [] ∧
    ∃ fields,
      [Call.SecondaryGet "tok1" .User (.ok ⟨"tok1", "u1", .User, DeviceProvider⟩),
          Call.DeviceSignResponse ⟨"tok1", "u1", .User, DeviceProvider⟩ "resp" ⟨none, none⟩,
          Call.GetUser ⟨"tok1", "u1", .User, DeviceProvider⟩ (.ok ⟨"u1", "alice"⟩),
          Call.ValidateUser ⟨"u1", "alice"⟩ false sampleRequest ⟨false, "", none, none⟩,
          Call.AuditNew sampleRequest "u1" .UserLogin [("method", "secondary")] none,
          Call.CookieNewUser].filter (Call.isAuditOf Surface.user.loginKind)
        = [Call.AuditNew sampleRequest "u1" Surface.user.loginKind fields none] :=
  ⟨by decide,
    audit_before_session .user .authU2fSignPost sampleWorld sampleContext _ []
      .User sampleRequest "u1" true .User none (by decide)⟩

/-- C2: for every handler of either surface and all results of the callees, if
the response status is 401 or 500 then the trace holds no `NewSession` call
that returned without error: no session was installed. -/
theorem no_session_on_401_500 (rt : Route) (w : World) (c : Context)
    (hs : (rt.run w c).response.statusCode = 401 ∨ (rt.run w c).response.statusCode = 500)
    (cook : Cookie) (r : Request) (userId : ObjectId) (remember : Bool) (typ : SessionScope) :
    Call.NewSession cook r userId remember typ none ∉ (rt.run w c).trace := by
  intro hmem
  have key : ∀ call ∈ (rt.run w c).trace, call.installsSession = false := by
    cases rt with
    | admin h =>
      cases h
      · exact (mhandlers.authStateGet w c).failsClosed_spec (admin_authStateGet_failsClosed w c) hs
      · exact (mhandlers.authSessionPost w c).failsClosed_spec (admin_authSessionPost_failsClosed w c) hs
      · exact (mhandlers.authSecondaryPost w c).failsClosed_spec (admin_authSecondaryPost_failsClosed w c) hs
      · exact (mhandlers.logoutGet w c).failsClosed_spec (admin_logoutGet_failsClosed w c) hs
      · exact (mhandlers.authRequestGet w c).failsClosed_spec (admin_authRequestGet_failsClosed w c) hs
      · exact (mhandlers.authCallbackGet w c).failsClosed_spec (admin_authCallbackGet_failsClosed w c) hs
      · exact (mhandlers.authU2fSignGet w c).failsClosed_spec (admin_authU2fSignGet_failsClosed w c) hs
      · exact (mhandlers.authU2fSignPost w c).failsClosed_spec (admin_authU2fSignPost_failsClosed w c) hs
    | user h =>
      cases h
      · exact (uhandlers.authStateGet w c).failsClosed_spec (user_authStateGet_failsClosed w c) hs
      · exact (uhandlers.authSessionPost w c).failsClosed_spec (user_authSessionPost_failsClosed w c) hs
      · exact (uhandlers.authSecondaryPost w c).failsClosed_spec (user_authSecondaryPost_failsClosed w c) hs
      · exact (uhandlers.logoutGet w c).failsClosed_spec (user_logoutGet_failsClosed w c) hs
      · exact uhandlers.logoutAllGet_no_session w c
      · exact (uhandlers.authRequestGet w c).failsClosed_spec (user_authRequestGet_failsClosed w c) hs
      · exact (uhandlers.authCallbackGet w c).failsClosed_spec (user_authCallbackGet_failsClosed w c) hs
      · exact (uhandlers.authU2fAppGet w c).failsClosed_spec (user_authU2fAppGet_failsClosed w c) hs
      · exact (uhandlers.authU2fRegisterGet w c).failsClosed_spec (user_authU2fRegisterGet_failsClosed w c) hs
      · exact (uhandlers.authU2fRegisterPost w c).failsClosed_spec (user_authU2fRegisterPost_failsClosed w c) hs
      · exact (uhandlers.authU2fSignGet w c).failsClosed_spec (user_authU2fSignGet_failsClosed w c) hs
      · exact (uhandlers.authU2fSignPost w c).failsClosed_spec (user_authU2fSignPost_failsClosed w c) hs
  have := key _ hmem
  simp [Call.installsSession] at this

/-- The administrator's `authSessionPost` when the cookie binder fails: the
response is 500, the trace holds the failed `NewSession` call and no successful
one. -/
theorem no_session_on_401_500_witness :
    ((Route.admin .authSessionPost).run sessionFailsWorld sampleContext).response.statusCode = 500 ∧
    Call.NewSession .Admin sampleRequest "u1" true .Admin (some otherError)
      ∈ ((Route.admin .authSessionPost).run sessionFailsWorld sampleContext).trace ∧
    Call.NewSession .Admin sampleRequest "u1" true .Admin none
      ∉ ((Route.admin .authSessionPost).run sessionFailsWorld sampleContext).trace :=
  ⟨by decide, by decide,
    no_session_on_401_500 (.admin .authSessionPost) sessionFailsWorld sampleContext
      (Or.inr (by decide)) .Admin sampleRequest "u1" true .Admin⟩

/-! ## The device sign response -/

/-- C3: `authU2fSignPost` where the challenge is found and
`secd.DeviceSignResponse` returns error data with a nil error, the validator
accepting.  The claim asks for a 401 carrying the error data and no
`NewSession` call; the handler of either surface goes on to the validator,
writes the success audit and installs a session. -/
theorem authU2fSignPost_ignores_device_error :
    mhandlers.authU2fSignPost deviceRejectsWorld sampleContext
      = ⟨[Call.SecondaryGet "tok1" .Admin (.ok ⟨"tok1", "u1", .Admin, DeviceProvider⟩),
          Call.DeviceSignResponse ⟨"tok1", "u1", .Admin, DeviceProvider⟩ "resp"
            ⟨some sampleErrorData, none⟩,
          Call.GetUser ⟨"tok1", "u1", .Admin, DeviceProvider⟩ (.ok ⟨"u1", "alice"⟩),
          Call.ValidateAdmin ⟨"u1", "alice"⟩ false sampleRequest ⟨false, "", none, none⟩,
          Call.AuditNew sampleRequest "u1" .AdminLogin [("method", "secondary")] none,
          Call.CookieNewAdmin,
          Call.NewSession .Admin sampleRequest "u1" true .Admin none],
        .Status 200⟩ ∧
    uhandlers.authU2fSignPost deviceRejectsWorld sampleContext
      = ⟨[Call.SecondaryGet "tok1" .User (.ok ⟨"tok1", "u1", .User, DeviceProvider⟩),
          Call.DeviceSignResponse ⟨"tok1", "u1", .User, DeviceProvider⟩ "resp"
            ⟨some sampleErrorData, none⟩,
          Call.GetUser ⟨"tok1", "u1", .User, DeviceProvider⟩ (.ok ⟨"u1", "alice"⟩),
          Call.ValidateUser ⟨"u1", "alice"⟩ false sampleRequest ⟨false, "", none, none⟩,
          Call.AuditNew sampleRequest "u1" .UserLogin [("method", "secondary")] none,
          Call.CookieNewUser,
          Call.NewSession .User sampleRequest "u1" true .User none],
        .redirectQueryJson "next=%2Fapp"⟩ := by
  decide

/-! ## Local credentials -/

/-- C4: in `authSessionPost` of either surface, when the body binds and
`auth.Local` returns error data with a nil error, the response is 401 with
exactly that error data, and the trace is the one call of `auth.Local`: no
`audit.New`, no validator, no `secondary.New` and no `NewSession` call. -/
theorem bad_local_credentials_silent (s : Surface) (w : World) (c : Context)
    (data : authData) (errData : ErrorData)
    (hb : c.BindAuthData = .ok data)
    (hd : (w.Local data.Username data.Password).errData = some errData)
    (he : (w.Local data.Username data.Password).err = none) :
    (s.login .authSessionPost w c).response = .JSON 401 (.errorData errData) ∧
    (s.login .authSessionPost w c).trace
      = [Call.Local data.Username data.Password (w.Local data.Username data.Password)] ∧
    ∀ call ∈ (s.login .authSessionPost w c).trace,
      call.isAuditNew = false ∧ call.isValidate = false ∧
      call.isSecondaryNew = false ∧ call.isNewSession = false := by
  cases s <;>
    simp [Surface.login, mhandlers.login, uhandlers.login, mhandlers.authSessionPost,
      uhandlers.authSessionPost, hb, hd, he, Call.isAuditNew, Call.isValidate,
      Call.isSecondaryNew, Call.isNewSession]

/-- The user surface's `authSessionPost` when `auth.Local` rejects the
credentials of `alice`. -/
theorem bad_local_credentials_silent_witness :
    sampleContext.BindAuthData = .ok ⟨"alice", "pw"⟩ ∧
    (localRejectsWorld.Local "alice" "pw").errData = some sampleErrorData ∧
    (Surface.user.login .authSessionPost localRejectsWorld sampleContext).response
      = .JSON 401 (.errorData sampleErrorData) ∧
    (Surface.user.login .authSessionPost localRejectsWorld sampleContext).trace
      = [Call.Local "alice" "pw" ⟨⟨"", "alice"⟩, some sampleErrorData, none⟩] :=
  have h := bad_local_credentials_silent .user localRejectsWorld sampleContext
    ⟨"alice", "pw"⟩ sampleErrorData (by decide) (by decide) (by decide)
  ⟨by decide, by decide, h.1, h.2.1⟩

/-! ## Validator precedence -/

/-- A result that is no error is a value. -/
theorem exists_ok_of_ne_error {ε α : Type} (x : Except ε α) (h : ∀ e, x ≠ .error e) :
    ∃ a, x = .ok a := by
  cases x with
  | error e => exact absurd rfl (h e)
  | ok a => exact ⟨a, rfl⟩

/-- Handler `authSessionPost` of either surface follows the validator once the
body is bound and `auth.Local` has returned a user. -/
theorem authSessionPost_followsValidator (s : Surface) (w : World) (c : Context)
    (hw : w.succeeds) (data : authData)
    (hb : c.BindAuthData = .ok data)
    (hle : (w.Local data.Username data.Password).err = none)
    (hld : (w.Local data.Username data.Password).errData = none)
    (he : (s.validate w (w.Local data.Username data.Password).usr false c.Request).err
      = none) :
    s.followsValidator c.Request
      (Call.Local data.Username data.Password (w.Local data.Username data.Password))
      (w.Local data.Username data.Password).usr
      (s.validate w (w.Local data.Username data.Password).usr false c.Request)
      (s.login .authSessionPost w c) := by
  obtain ⟨ha, hn, hd, hq, hs⟩ := hw
  generalize hres : w.Local data.Username data.Password = res at hle hld he
  cases s
  · obtain ⟨secd1, h1⟩ := exists_ok_of_ne_error _ (hn res.usr.Id .Admin DeviceProvider)
    obtain ⟨secd2, h2⟩ := exists_ok_of_ne_error _
      (hn res.usr.Id .Admin (w.ValidateAdmin res.usr false c.Request).secProviderId)
    obtain ⟨d1, hd1⟩ := exists_ok_of_ne_error _ (hd secd1)
    obtain ⟨d2, hd2⟩ := exists_ok_of_ne_error _ (hd secd2)
    refine ⟨?_, ?_, ?_, ?_⟩ <;> intros <;>
      simp_all [Surface.login, mhandlers.login, mhandlers.authSessionPost, Surface.validate,
        Surface.validateCall, Surface.loginFailedKind, Surface.loginKind, Surface.scope,
        Surface.cookie, Surface.sessionScope, Surface.cookieNewCall]
    all_goals exact ⟨_, _, ⟨rfl, rfl⟩, Or.inl ⟨_, rfl⟩⟩
  · obtain ⟨secd1, h1⟩ := exists_ok_of_ne_error _ (hn res.usr.Id .User DeviceProvider)
    obtain ⟨secd2, h2⟩ := exists_ok_of_ne_error _
      (hn res.usr.Id .User (w.ValidateUser res.usr false c.Request).secProviderId)
    obtain ⟨d1, hd1⟩ := exists_ok_of_ne_error _ (hd secd1)
    obtain ⟨d2, hd2⟩ := exists_ok_of_ne_error _ (hd secd2)
    refine ⟨?_, ?_, ?_, ?_⟩ <;> intros <;>
      simp_all [Surface.login, uhandlers.login, uhandlers.authSessionPost, Surface.validate,
        Surface.validateCall, Surface.loginFailedKind, Surface.loginKind, Surface.scope,
        Surface.cookie, Surface.sessionScope, Surface.cookieNewCall]
    all_goals exact ⟨_, _, ⟨rfl, rfl⟩, Or.inl ⟨_, rfl⟩⟩

/-- Handler `authCallbackGet` of either surface follows the validator once
`auth.Callback` has returned a user. -/
theorem authCallbackGet_followsValidator (s : Surface) (w : World) (c : Context)
    (hw : w.succeeds)
    (hle : (w.Callback (c.Query "sig") (canonicalQuery c.Request.URL.RawQuery)).err = none)
    (hld : (w.Callback (c.Query "sig") (canonicalQuery c.Request.URL.RawQuery)).errData
      = none)
    (he : (s.validate w
        (w.Callback (c.Query "sig") (canonicalQuery c.Request.URL.RawQuery)).usr
        false c.Request).err = none) :
    s.followsValidator c.Request
      (Call.Callback (c.Query "sig") (canonicalQuery c.Request.URL.RawQuery)
        (w.Callback (c.Query "sig") (canonicalQuery c.Request.URL.RawQuery)))
      (w.Callback (c.Query "sig") (canonicalQuery c.Request.URL.RawQuery)).usr
      (s.validate w (w.Callback (c.Query "sig") (canonicalQuery c.Request.URL.RawQuery)).usr
        false c.Request)
      (s.login .authCallbackGet w c) := by
  obtain ⟨ha, hn, hd, hq, hs⟩ := hw
  generalize hres : w.Callback (c.Query "sig") (canonicalQuery c.Request.URL.RawQuery) = res
    at hle hld he
  cases s
  · obtain ⟨secd1, h1⟩ := exists_ok_of_ne_error _ (hn res.usr.Id .Admin DeviceProvider)
    obtain ⟨secd2, h2⟩ := exists_ok_of_ne_error _
      (hn res.usr.Id .Admin (w.ValidateAdmin res.usr false c.Request).secProviderId)
    obtain ⟨d1, hd1⟩ := exists_ok_of_ne_error _ (hd secd1)
    obtain ⟨q2, hq2⟩ := exists_ok_of_ne_error _ (hq secd2)
    refine ⟨?_, ?_, ?_, ?_⟩ <;> intros <;>
      simp_all [Surface.login, mhandlers.login, mhandlers.authCallbackGet, Surface.validate,
        Surface.validateCall, Surface.loginFailedKind, Surface.loginKind, Surface.scope,
        Surface.cookie, Surface.sessionScope, Surface.cookieNewCall]
    all_goals exact ⟨_, _, ⟨rfl, rfl⟩, Or.inr ⟨_, rfl⟩⟩
  · obtain ⟨secd1, h1⟩ := exists_ok_of_ne_error _ (hn res.usr.Id .User DeviceProvider)
    obtain ⟨secd2, h2⟩ := exists_ok_of_ne_error _
      (hn res.usr.Id .User (w.ValidateUser res.usr false c.Request).secProviderId)
    obtain ⟨d1, hd1⟩ := exists_ok_of_ne_error _ (hd secd1)
    obtain ⟨q2, hq2⟩ := exists_ok_of_ne_error _ (hq secd2)
    by_cases htok : res.tokn.Query = ""
    all_goals refine ⟨?_, ?_, ?_, ?_⟩ <;> intros <;>
      simp_all [Surface.login, uhandlers.login, uhandlers.authCallbackGet, Surface.validate,
        Surface.validateCall, Surface.loginFailedKind, Surface.loginKind, Surface.scope,
        Surface.cookie, Surface.sessionScope, Surface.cookieNewCall]
    all_goals exact ⟨_, _, ⟨rfl, rfl⟩, Or.inr ⟨_, rfl⟩⟩

/-- C5: in `authSessionPost` and `authCallbackGet` of either surface, when the
principal is resolved (the body binds and `auth.Local` returns a user, or
`auth.Callback` returns a user), the validator returns without error and no
callee after it fails, the handler calls the validator for that user right
after the resolution and follows its result: (1) on reject data it writes the
audit of kind `<role>-login-failed` with the reject's error and message and
answers 401 with the reject data, whatever the other two values are; (2) else,
if `deviceAuth` is true, it opens a challenge for `DeviceProvider`, whatever
`secProviderId` is; (3) else, if `secProviderId` is not empty, it opens a
challenge for exactly that provider id; (4) else it writes the success audit
and installs a session.  In the cases (1) to (3) the trace ends without a
`NewSession` call. -/
theorem validator_precedence (s : Surface) (w : World) (c : Context) (hw : w.succeeds) :
    (∀ data, c.BindAuthData = .ok data →
      (w.Local data.Username data.Password).err = none →
      (w.Local data.Username data.Password).errData = none →
      (s.validate w (w.Local data.Username data.Password).usr false c.Request).err = none →
      s.followsValidator c.Request
        (Call.Local data.Username data.Password (w.Local data.Username data.Password))
        (w.Local data.Username data.Password).usr
        (s.validate w (w.Local data.Username data.Password).usr false c.Request)
        (s.login .authSessionPost w c)) ∧
    ((w.Callback (c.Query "sig") (canonicalQuery c.Request.URL.RawQuery)).err = none →
      (w.Callback (c.Query "sig") (canonicalQuery c.Request.URL.RawQuery)).errData = none →
      (s.validate w
        (w.Callback (c.Query "sig") (canonicalQuery c.Request.URL.RawQuery)).usr
        false c.Request).err = none →
      s.followsValidator c.Request
        (Call.Callback (c.Query "sig") (canonicalQuery c.Request.URL.RawQuery)
          (w.Callback (c.Query "sig") (canonicalQuery c.Request.URL.RawQuery)))
        (w.Callback (c.Query "sig") (canonicalQuery c.Request.URL.RawQuery)).usr
        (s.validate w
          (w.Callback (c.Query "sig") (canonicalQuery c.Request.URL.RawQuery)).usr
          false c.Request)
        (s.login .authCallbackGet w c)) :=
  ⟨fun data hb hle hld he => authSessionPost_followsValidator s w c hw data hb hle hld he,
    fun hle hld he => authCallbackGet_followsValidator s w c hw hle hld he⟩

/-- The administrator's `authCallbackGet` when the validator rejects while
also asking for a device and for a provider: the reject wins, the trace is the
callback, the validator call and the `AdminLoginFailed` audit, and the response
is 401.  The user's `authSessionPost` in the sample world, where the validator
accepts: the trace ends with the `UserLogin` audit and the installed
session. -/
theorem validator_precedence_witness :
    rejectWorld.succeeds ∧
    ((Surface.admin.login .authCallbackGet rejectWorld sampleContext).trace
        = [Call.Callback "s1" "next=%2Fapp" ⟨⟨"u1", "alice"⟩, ⟨"next=%2Fapp"⟩, none, none⟩,
            Call.ValidateAdmin ⟨"u1", "alice"⟩ false sampleRequest
              ⟨true, "duo", some sampleErrorData, none⟩,
            Call.AuditNew sampleRequest "u1" .AdminLoginFailed
              [("error", "unauthorized"), ("message", "Not authorized")] none] ∧
      (Surface.admin.login .authCallbackGet rejectWorld sampleContext).response
        = .JSON 401 (.errorData sampleErrorData)) ∧
    sampleWorld.succeeds ∧
    ∃ fields,
      (Surface.user.login .authSessionPost sampleWorld sampleContext).trace
        = [Call.Local "alice" "pw" ⟨⟨"u1", "alice"⟩, none, none⟩,
            Call.ValidateUser ⟨"u1", "alice"⟩ false sampleRequest ⟨false, "", none, none⟩,
            Call.AuditNew sampleRequest "u1" .UserLogin fields none,
            Call.CookieNewUser,
            Call.NewSession .User sampleRequest "u1" true .User none] :=
  have hr : rejectWorld.succeeds := by
    simp [World.succeeds, rejectWorld, sampleWorld]
  have hs : sampleWorld.succeeds := by
    simp [World.succeeds, sampleWorld]
  ⟨hr,
    ((validator_precedence .admin rejectWorld sampleContext hr).2 rfl rfl rfl).1
      sampleErrorData rfl,
    hs,
    ((validator_precedence .user sampleWorld sampleContext hs).1 ⟨"alice", "pw"⟩ rfl rfl rfl
      rfl).2.2.2 rfl rfl rfl⟩

/-! ## The federated callback -/

/-- C6: in `authCallbackGet` of either surface, when `auth.Callback` returns an
error, the response is the redirect 302 to `/` if the error is of type
`InvalidState` and the abort with status 500 otherwise; the status is never
200, and the trace is the one call of `auth.Callback`: no validator, no
`audit.New`, no `secondary.New` and no `NewSession` call. -/
theorem callback_error_mapping (s : Surface) (w : World) (c : Context) (err : GoError)
    (he : (w.Callback (c.Query "sig") (canonicalQuery c.Request.URL.RawQuery)).err
      = some err) :
    (err.type = .InvalidState →
      (s.login .authCallbackGet w c).response = .Redirect 302 "/") ∧
    (err.type ≠ .InvalidState →
      (s.login .authCallbackGet w c).response = .AbortWithError 500 err ∧
      (s.login .authCallbackGet w c).response.statusCode = 500) ∧
    (s.login .authCallbackGet w c).response.statusCode ≠ 200 ∧
    (s.login .authCallbackGet w c).trace
      = [Call.Callback (c.Query "sig") (canonicalQuery c.Request.URL.RawQuery)
          (w.Callback (c.Query "sig") (canonicalQuery c.Request.URL.RawQuery))] ∧
    ∀ call ∈ (s.login .authCallbackGet w c).trace,
      call.isValidate = false ∧ call.isAuditNew = false ∧
      call.isSecondaryNew = false ∧ call.isNewSession = false := by
  obtain ⟨ty, text⟩ := err
  cases s <;> cases ty <;>
    simp [Surface.login, mhandlers.login, uhandlers.login, mhandlers.authCallbackGet,
      uhandlers.authCallbackGet, he, Response.statusCode, Call.isAuditNew, Call.isValidate,
      Call.isSecondaryNew, Call.isNewSession]

/-- The administrator's `authCallbackGet` when the state is invalid: a 302
redirect to `/` after the one call of `auth.Callback`. -/
theorem callback_error_mapping_witness :
    (invalidStateWorld.Callback (callbackContext.Query "sig")
        (canonicalQuery callbackContext.Request.URL.RawQuery)).err
      = some ⟨.InvalidState, "auth: invalid state"⟩ ∧
    (Surface.admin.login .authCallbackGet invalidStateWorld callbackContext).response
      = .Redirect 302 "/" ∧
    (Surface.admin.login .authCallbackGet invalidStateWorld callbackContext).response.statusCode
      ≠ 200 :=
  have h := callback_error_mapping .admin invalidStateWorld callbackContext
    ⟨.InvalidState, "auth: invalid state"⟩ (by decide)
  ⟨by decide, h.1 rfl, h.2.2.1⟩

/-! ## The canonical query -/

/-- The separator `&sig=` is no prefix of a text that starts with a non-empty
text free of the separator and goes on with the separator. -/
theorem strings.not_isPrefixOf_sig (c : Char) (cs v : List Char)
    (hq : ¬ "&sig=".data <:+: c :: cs) :
    ("&sig=".data).isPrefixOf (c :: (cs ++ ("&sig=".data ++ v))) = false := by
  rcases cs with _ | ⟨c1, _ | ⟨c2, _ | ⟨c3, _ | ⟨c4, cs⟩⟩⟩⟩
  · simp [List.isPrefixOf]
  · simp [List.isPrefixOf]
  · simp [List.isPrefixOf]
  · simp [List.isPrefixOf]
  · by_contra hp
    simp only [Bool.not_eq_false] at hp
    apply hq
    have hp2 : "&sig=".data <+: c :: c1 :: c2 :: c3 :: c4 :: cs := by
      simp [List.isPrefixOf] at hp
      obtain ⟨rfl, rfl, rfl, rfl, rfl⟩ := hp
      exact ⟨cs, rfl⟩
    exact hp2.isInfix

/-- `Index` finds the separator `&sig=` right after a text that does not
contain it. -/
theorem strings.Index_append_sig (q v : List Char) (hq : ¬ "&sig=".data <:+: q) :
    strings.Index (q ++ ("&sig=".data ++ v)) "&sig=".data = some q.length := by
  induction q with
  | nil =>
    have : ("&sig=".data).isPrefixOf ("&sig=".data ++ v) = true := by simp [List.isPrefixOf]
    show strings.Index ('&' :: ("sig=".data ++ v)) "&sig=".data = some 0
    rw [strings.Index]
    simp [List.isPrefixOf]
  | cons c cs ih =>
    have hcs : ¬ "&sig=".data <:+: cs := fun h => hq (h.trans (List.suffix_cons c cs).isInfix)
    have hpre := strings.not_isPrefixOf_sig c cs v hq
    rw [List.cons_append, strings.Index, hpre, ih hcs]
    simp

/-- The first piece of the split at `&sig=` is the text before the
separator, when that text does not contain the separator. -/
theorem canonicalQuery_append_sig (q v : String) (hq : ¬ "&sig=".data <:+: q.data) :
    canonicalQuery (q ++ "&sig=" ++ v) = q := by
  have hne : ("&sig=" : String) ≠ "" := by decide
  have hdata : (q ++ "&sig=" ++ v).data = q.data ++ ("&sig=".data ++ v.data) := by
    simp [String.data_append]
  have hlength : ∀ s : String, s.length = s.data.length := fun _ => rfl
  have hlen : (q ++ "&sig=" ++ v).length = (q.data.length + 4 + v.data.length) + 1 := by
    rw [hlength, hdata, List.length_append, List.length_append]
    show q.data.length + (5 + v.data.length) = _
    omega
  unfold canonicalQuery strings.Split
  rw [if_neg hne, hlen, hdata, strings.genSplit, strings.Index_append_sig _ _ hq]
  simp only [List.map_cons, List.headD_cons, List.take_left]

/-- C7, as stated, fails: for `q = a=1&sig=b` and `v = c` the raw query is
`a=1&sig=b&sig=c` and the canonical query is `a=1`, not `q`: the split is at
the first `&sig=`, not at the trailing one. -/
theorem canonical_query_counterexample :
    canonicalQuery ("a=1&sig=b" ++ "&sig=" ++ "c") = "a=1" ∧
    ¬ (∀ q v : String, canonicalQuery (q ++ "&sig=" ++ v) = q) := by
  refine ⟨by decide, fun h => ?_⟩
  have := h "a=1&sig=b" "c"
  revert this
  decide

/-- C7, amended: for every raw query `q ++ "&sig=" ++ v` in which `q` does not
contain `&sig=`, the canonical query `strings.Split(raw, "&sig=")[0]` equals
`q`, and it is the query `authCallbackGet` of either surface passes to
`auth.Callback`, as the first call of its trace. -/
theorem canonical_query (s : Surface) (w : World) (c : Context) (q v : String)
    (hraw : c.Request.URL.RawQuery = q ++ "&sig=" ++ v)
    (hq : ¬ "&sig=".data <:+: q.data) :
    canonicalQuery c.Request.URL.RawQuery = q ∧
    (s.login .authCallbackGet w c).trace.head?
      = some (Call.Callback (c.Query "sig") q (w.Callback (c.Query "sig") q)) := by
  have hc : canonicalQuery c.Request.URL.RawQuery = q := by
    rw [hraw]
    exact canonicalQuery_append_sig q v hq
  refine ⟨hc, ?_⟩
  cases s <;>
    simp only [Surface.login, mhandlers.login, uhandlers.login, mhandlers.authCallbackGet,
      uhandlers.authCallbackGet, hc]
  all_goals repeat' split
  all_goals simp

/-- The raw query `state=xyz&sig=abc`: the canonical query is `state=xyz`, and
the user surface's `authCallbackGet` passes it to `auth.Callback`. -/
theorem canonical_query_witness :
    callbackContext.Request.URL.RawQuery = "state=xyz" ++ "&sig=" ++ "abc" ∧
    canonicalQuery callbackContext.Request.URL.RawQuery = "state=xyz" ∧
    (Surface.user.login .authCallbackGet sampleWorld callbackContext).trace.head?
      = some (Call.Callback (callbackContext.Query "sig") "state=xyz"
          (sampleWorld.Callback (callbackContext.Query "sig") "state=xyz")) :=
  ⟨by decide,
    canonical_query .user sampleWorld callbackContext "state=xyz" "abc" (by decide) (by decide)⟩

/-! ## Challenge lookup -/

/-- C8: in every handler that looks a challenge up by token
(`authSecondaryPost`, `authU2fSignGet`, `authU2fSignPost` of both surfaces and
`authU2fRegisterPost`), when the call of `secondary.Get` failed with `err`: if
`err` is a `NotFoundError` the response is 401 with the body
`secondary_expired` / `Two-factor authentication has expired`, otherwise it is
the abort with status 500; in both cases the lookup is the last call of the
trace and no call of a later callee (challenge handler, device verifier,
validator, audit, new challenge, cookie binder) is in the trace. -/
theorem secondary_expired (rt : Route) (w : World) (c : Context) (token : String)
    (typ : SecondaryScope) (err : GoError)
    (hr : rt ∈ lookupRoutes)
    (hg : Call.SecondaryGet token typ (.error err) ∈ (rt.run w c).trace) :
    (err.type = .NotFoundError →
      (rt.run w c).response = .JSON 401 (.errorData
        { Error := "secondary_expired",
          Message := "Two-factor authentication has expired" })) ∧
    (err.type ≠ .NotFoundError →
      (rt.run w c).response = .AbortWithError 500 err ∧
      (rt.run w c).response.statusCode = 500) ∧
    (rt.run w c).trace.getLast? = some (Call.SecondaryGet token typ (.error err)) ∧
    ∀ call ∈ (rt.run w c).trace, call.followsLookup = false := by
  revert hg
  simp only [lookupRoutes, List.mem_cons, List.mem_singleton, List.not_mem_nil,
    or_false] at hr
  rcases hr with rfl | rfl | rfl | rfl | rfl | rfl | rfl <;>
    simp only [Route.run, mhandlers.Handler.run, uhandlers.Handler.run,
      mhandlers.authSecondaryPost, mhandlers.authU2fSignGet, mhandlers.authU2fSignPost,
      uhandlers.authSecondaryPost, uhandlers.authU2fSignGet, uhandlers.authU2fSignPost,
      uhandlers.authU2fRegisterPost]
  all_goals repeat' split
  all_goals
    intro hg
    simp only [List.mem_append, List.mem_cons, List.mem_singleton, List.not_mem_nil,
      or_false, false_or, reduceCtorEq, Call.SecondaryGet.injEq, or_self] at hg
  all_goals
    simp_all [Call.followsLookup, Response.statusCode, secondaryExpired]

/-- The seven handlers in a world where the challenge is not found: each
answers 401 `secondary_expired` and calls nothing after the lookup. -/
theorem secondary_expired_witness :
    ((Route.admin .authSecondaryPost).run expiredWorld sampleContext).response
      = .JSON 401 (.errorData ⟨"secondary_expired", "Two-factor authentication has expired"⟩) ∧
    ((Route.admin .authU2fSignGet).run expiredWorld sampleContext).response
      = .JSON 401 (.errorData ⟨"secondary_expired", "Two-factor authentication has expired"⟩) ∧
    ((Route.admin .authU2fSignPost).run expiredWorld sampleContext).response
      = .JSON 401 (.errorData ⟨"secondary_expired", "Two-factor authentication has expired"⟩) ∧
    ((Route.user .authSecondaryPost).run expiredWorld sampleContext).response
      = .JSON 401 (.errorData ⟨"secondary_expired", "Two-factor authentication has expired"⟩) ∧
    ((Route.user .authU2fSignGet).run expiredWorld sampleContext).response
      = .JSON 401 (.errorData ⟨"secondary_expired", "Two-factor authentication has expired"⟩) ∧
    ((Route.user .authU2fSignPost).run expiredWorld sampleContext).response
      = .JSON 401 (.errorData ⟨"secondary_expired", "Two-factor authentication has expired"⟩) ∧
    ((Route.user .authU2fRegisterPost).run expiredWorld sampleContext).response
      = .JSON 401 (.errorData ⟨"secondary_expired", "Two-factor authentication has expired"⟩) ∧
    ((Route.user .authU2fRegisterPost).run expiredWorld sampleContext).trace
      = [Call.Blocked none, Call.AuthrGetUser sampleContext.authorizer (.ok ⟨"u1", "alice"⟩),
          Call.SecondaryGet "tok1" .Register (.error notFoundError)] :=
  ⟨(secondary_expired (.admin .authSecondaryPost) expiredWorld sampleContext "tok1" .Admin
      notFoundError (by decide) (by decide)).1 rfl,
    (secondary_expired (.admin .authU2fSignGet) expiredWorld sampleContext "tok1" .Admin
      notFoundError (by decide) (by decide)).1 rfl,
    (secondary_expired (.admin .authU2fSignPost) expiredWorld sampleContext "tok1" .Admin
      notFoundError (by decide) (by decide)).1 rfl,
    (secondary_expired (.user .authSecondaryPost) expiredWorld sampleContext "tok1" .User
      notFoundError (by decide) (by decide)).1 rfl,
    (secondary_expired (.user .authU2fSignGet) expiredWorld sampleContext "tok1" .User
      notFoundError (by decide) (by decide)).1 rfl,
    (secondary_expired (.user .authU2fSignPost) expiredWorld sampleContext "tok1" .User
      notFoundError (by decide) (by decide)).1 rfl,
    (secondary_expired (.user .authU2fRegisterPost) expiredWorld sampleContext "tok1" .Register
      notFoundError (by decide) (by decide)).1 rfl,
    by decide⟩

/-! ## The secondary factor -/

/-- C9, as stated, fails in `authSecondaryPost`, with the challenge found,
`secd.Handle` returning neither error nor error data and `GetUser` succeeding:
when the validator returns an error the handler answers 500 and writes no
audit; when the validator rejects and `audit.New` fails it answers 500, not
401; when the validator accepts and `audit.New` fails it answers 500 and does
not call `NewSession`. -/
theorem complete_secondary_counterexample :
    mhandlers.authSecondaryPost validatorFailsWorld sampleContext
      = ⟨[Call.SecondaryGet "tok1" .Admin (.ok ⟨"tok1", "u1", .Admin, DeviceProvider⟩),
          Call.Handle ⟨"tok1", "u1", .Admin, DeviceProvider⟩ sampleRequest "totp" "000000"
            ⟨none, none⟩,
          Call.GetUser ⟨"tok1", "u1", .Admin, DeviceProvider⟩ (.ok ⟨"u1", "alice"⟩),
          Call.ValidateAdmin ⟨"u1", "alice"⟩ false sampleRequest
            ⟨false, "", none, some otherError⟩],
        .AbortWithError 500 otherError⟩ ∧
    mhandlers.authSecondaryPost rejectAuditFailsWorld sampleContext
      = ⟨[Call.SecondaryGet "tok1" .Admin (.ok ⟨"tok1", "u1", .Admin, DeviceProvider⟩),
          Call.Handle ⟨"tok1", "u1", .Admin, DeviceProvider⟩ sampleRequest "totp" "000000"
            ⟨none, none⟩,
          Call.GetUser ⟨"tok1", "u1", .Admin, DeviceProvider⟩ (.ok ⟨"u1", "alice"⟩),
          Call.ValidateAdmin ⟨"u1", "alice"⟩ false sampleRequest
            ⟨true, "duo", some sampleErrorData, none⟩,
          Call.AuditNew sampleRequest "u1" .AdminLoginFailed
            [("error", "unauthorized"), ("message", "Not authorized")] (some otherError)],
        .AbortWithError 500 otherError⟩ ∧
    uhandlers.authSecondaryPost auditFailsWorld sampleContext
      = ⟨[Call.SecondaryGet "tok1" .User (.ok ⟨"tok1", "u1", .User, DeviceProvider⟩),
          Call.Handle ⟨"tok1", "u1", .User, DeviceProvider⟩ sampleRequest "totp" "000000"
            ⟨none, none⟩,
          Call.GetUser ⟨"tok1", "u1", .User, DeviceProvider⟩ (.ok ⟨"u1", "alice"⟩),
          Call.ValidateUser ⟨"u1", "alice"⟩ false sampleRequest ⟨false, "", none, none⟩,
          Call.AuditNew sampleRequest "u1" .UserLogin [("method", "secondary")]
            (some otherError)],
        .AbortWithError 500 otherError⟩ := by
  decide

/-- C9, amended: in `authSecondaryPost` of either surface, with the body bound
and the challenge found: if `secd.Handle` returns neither error nor error data,
`GetUser` succeeds, the validator returns without error and `audit.New`
returns without error, then the validator is run again for the challenge's
user and (a) on reject data the trace ends with one audit of kind
`<role>-login-failed` with the reject's error and message, and the response is
401 with the reject data, with no `NewSession` call; (b) otherwise the trace
ends with one audit of kind `<role>-login` with fields `method: secondary`,
the cookie binder and a `NewSession` call for the challenge's user, whatever
`deviceAuth` and `secProviderId` are.  If `secd.Handle` returns an
`IncompleteError`, the response is the bare status 201 and the trace holds the
lookup and the `Handle` call only. -/
theorem complete_secondary_outcome (s : Surface) (w : World) (c : Context)
    (data : secondaryData) (secd : Secondary)
    (hb : c.BindSecondaryData = .ok data)
    (hg : w.SecondaryGet data.Token s.scope = .ok secd) :
    (∀ usr, w.Handle secd c.Request data.Factor data.Passcode = ⟨none, none⟩ →
      w.GetUser secd = .ok usr →
      (s.validate w usr false c.Request).err = none →
      (∀ typ fields, w.AuditNew c.Request usr.Id typ fields = none) →
      (∀ reject, (s.validate w usr false c.Request).errData = some reject →
        (s.login .authSecondaryPost w c).trace
          = [Call.SecondaryGet data.Token s.scope (.ok secd),
              Call.Handle secd c.Request data.Factor data.Passcode ⟨none, none⟩,
              Call.GetUser secd (.ok usr),
              s.validateCall usr false c.Request (s.validate w usr false c.Request),
              Call.AuditNew c.Request usr.Id s.loginFailedKind
                [("error", reject.Error), ("message", reject.Message)] none] ∧
        (s.login .authSecondaryPost w c).response = .JSON 401 (.errorData reject)) ∧
      ((s.validate w usr false c.Request).errData = none →
        (s.login .authSecondaryPost w c).trace
          = [Call.SecondaryGet data.Token s.scope (.ok secd),
              Call.Handle secd c.Request data.Factor data.Passcode ⟨none, none⟩,
              Call.GetUser secd (.ok usr),
              s.validateCall usr false c.Request (s.validate w usr false c.Request),
              Call.AuditNew c.Request usr.Id s.loginKind [("method", "secondary")] none,
              s.cookieNewCall,
              Call.NewSession s.cookie c.Request usr.Id true s.sessionScope
                (w.NewSession s.cookie c.Request usr.Id true s.sessionScope)])) ∧
    (∀ err, (w.Handle secd c.Request data.Factor data.Passcode).err = some err →
      err.type = .IncompleteError →
      (s.login .authSecondaryPost w c).response = .Status 201 ∧
      (s.login .authSecondaryPost w c).trace
        = [Call.SecondaryGet data.Token s.scope (.ok secd),
            Call.Handle secd c.Request data.Factor data.Passcode
              (w.Handle secd c.Request data.Factor data.Passcode)]) := by
  refine ⟨?_, ?_⟩
  · intro usr hh hu hve ha
    refine ⟨?_, ?_⟩
    · intro reject hr
      cases s <;>
        simp_all [Surface.login, mhandlers.login, uhandlers.login,
          mhandlers.authSecondaryPost, uhandlers.authSecondaryPost, Surface.validate,
          Surface.scope, Surface.validateCall, Surface.loginFailedKind]
    · intro hr
      cases s <;>
        simp_all [Surface.login, mhandlers.login, uhandlers.login,
          mhandlers.authSecondaryPost, uhandlers.authSecondaryPost, Surface.validate,
          Surface.scope, Surface.validateCall, Surface.loginKind, Surface.cookieNewCall,
          Surface.cookie, Surface.sessionScope]
      all_goals split <;> simp_all
  · intro err hh hi
    cases s <;>
      simp_all [Surface.login, mhandlers.login, uhandlers.login,
        mhandlers.authSecondaryPost, uhandlers.authSecondaryPost, Surface.scope]

/-- The administrator's `authSecondaryPost` in the sample world (accepted: the
success audit, then `NewSession` for `u1`) and in a world where the challenge
handler reports an incomplete factor (status 201 after the lookup and the
`Handle` call). -/
theorem complete_secondary_outcome_witness :
    (Surface.admin.login .authSecondaryPost sampleWorld sampleContext).trace
      = [Call.SecondaryGet "tok1" .Admin (.ok ⟨"tok1", "u1", .Admin, DeviceProvider⟩),
          Call.Handle ⟨"tok1", "u1", .Admin, DeviceProvider⟩ sampleRequest "totp" "000000"
            ⟨none, none⟩,
          Call.GetUser ⟨"tok1", "u1", .Admin, DeviceProvider⟩ (.ok ⟨"u1", "alice"⟩),
          Call.ValidateAdmin ⟨"u1", "alice"⟩ false sampleRequest ⟨false, "", none, none⟩,
          Call.AuditNew sampleRequest "u1" .AdminLogin [("method", "secondary")] none,
          Call.CookieNewAdmin,
          Call.NewSession .Admin sampleRequest "u1" true .Admin none] ∧
    (Surface.admin.login .authSecondaryPost incompleteWorld sampleContext).response
      = .Status 201 :=
  ⟨((complete_secondary_outcome .admin sampleWorld sampleContext
        ⟨"tok1", "totp", "000000"⟩ ⟨"tok1", "u1", .Admin, DeviceProvider⟩ rfl rfl).1
      ⟨"u1", "alice"⟩ rfl rfl rfl (fun _ _ => rfl)).2 rfl,
    ((complete_secondary_outcome .admin incompleteWorld sampleContext
        ⟨"tok1", "totp", "000000"⟩ ⟨"tok1", "u1", .Admin, DeviceProvider⟩ rfl rfl).2
      ⟨.IncompleteError, "secondary: incomplete"⟩ rfl rfl).1⟩

/-! ## The device factor and a required provider factor -/

/-- C10, as stated, fails in `authU2fSignPost`, with the device response
verified and the validator returning no reject and the provider `duo`: when
`secondary.New` fails, or when `secd.GetData` fails, the handler answers 500,
not 201. -/
theorem device_factor_counterexample :
    mhandlers.authU2fSignPost challengeFailsWorld sampleContext
      = ⟨[Call.SecondaryGet "tok1" .Admin (.ok ⟨"tok1", "u1", .Admin, DeviceProvider⟩),
          Call.DeviceSignResponse ⟨"tok1", "u1", .Admin, DeviceProvider⟩ "resp" ⟨none, none⟩,
          Call.GetUser ⟨"tok1", "u1", .Admin, DeviceProvider⟩ (.ok ⟨"u1", "alice"⟩),
          Call.ValidateAdmin ⟨"u1", "alice"⟩ false sampleRequest ⟨false, "duo", none, none⟩,
          Call.SecondaryNew "u1" .Admin "duo" (.error otherError)],
        .AbortWithError 500 otherError⟩ ∧
    uhandlers.authU2fSignPost descriptorFailsWorld sampleContext
      = ⟨[Call.SecondaryGet "tok1" .User (.ok ⟨"tok1", "u1", .User, DeviceProvider⟩),
          Call.DeviceSignResponse ⟨"tok1", "u1", .User, DeviceProvider⟩ "resp" ⟨none, none⟩,
          Call.GetUser ⟨"tok1", "u1", .User, DeviceProvider⟩ (.ok ⟨"u1", "alice"⟩),
          Call.ValidateUser ⟨"u1", "alice"⟩ false sampleRequest ⟨false, "duo", none, none⟩,
          Call.SecondaryNew "u1" .User "duo" (.ok ⟨"tok2", "u1", .User, "duo"⟩),
          Call.GetData ⟨"tok2", "u1", .User, "duo"⟩ (.error otherError)],
        .AbortWithError 500 otherError⟩ := by
  decide

/-- C10, amended: in `authU2fSignPost` of either surface, when the device
response is verified, the validator then returns no error, no reject and a
non-empty `secProviderId`, and `secondary.New` and `secd.GetData` return
without error, the handler opens a new challenge for the same user id, the
surface's scope and exactly that provider id, answers 201 with the new
challenge's descriptor, and the trace holds no `audit.New` call and no
`NewSession` call. -/
theorem device_factor_no_bypass (s : Surface) (w : World) (c : Context)
    (data : u2fSignData) (secd : Secondary) (usr : User) (secd2 : Secondary) (d : String)
    (hb : c.BindU2fSignData = .ok data)
    (hg : w.SecondaryGet data.Token s.scope = .ok secd)
    (hd : w.DeviceSignResponse secd data.Response = ⟨none, none⟩)
    (hu : w.GetUser secd = .ok usr)
    (he : (s.validate w usr false c.Request).err = none)
    (hr : (s.validate w usr false c.Request).errData = none)
    (hp : (s.validate w usr false c.Request).secProviderId ≠ "")
    (hn : w.SecondaryNew usr.Id s.scope (s.validate w usr false c.Request).secProviderId
      = .ok secd2)
    (hdata : w.GetData secd2 = .ok d) :
    (s.login .authU2fSignPost w c).trace
      = [Call.SecondaryGet data.Token s.scope (.ok secd),
          Call.DeviceSignResponse secd data.Response ⟨none, none⟩,
          Call.GetUser secd (.ok usr),
          s.validateCall usr false c.Request (s.validate w usr false c.Request),
          Call.SecondaryNew usr.Id s.scope (s.validate w usr false c.Request).secProviderId
            (.ok secd2),
          Call.GetData secd2 (.ok d)] ∧
    (s.login .authU2fSignPost w c).response = .JSON 201 (.secondaryData d) ∧
    ∀ call ∈ (s.login .authU2fSignPost w c).trace,
      call.isAuditNew = false ∧ call.isNewSession = false := by
  cases s <;>
    simp_all [Surface.login, mhandlers.login, uhandlers.login,
      mhandlers.authU2fSignPost, uhandlers.authU2fSignPost, Surface.validate,
      Surface.scope, Surface.validateCall, Call.isAuditNew, Call.isNewSession]

/-- The user surface's `authU2fSignPost` when the validator asks for the
provider `duo` after a verified device response: a new challenge for `u1`,
scope `User`, provider `duo`, and the response 201 with its descriptor. -/
theorem device_factor_no_bypass_witness :
    (Surface.user.login .authU2fSignPost providerWorld sampleContext).trace
      = [Call.SecondaryGet "tok1" .User (.ok ⟨"tok1", "u1", .User, DeviceProvider⟩),
          Call.DeviceSignResponse ⟨"tok1", "u1", .User, DeviceProvider⟩ "resp" ⟨none, none⟩,
          Call.GetUser ⟨"tok1", "u1", .User, DeviceProvider⟩ (.ok ⟨"u1", "alice"⟩),
          Call.ValidateUser ⟨"u1", "alice"⟩ false sampleRequest ⟨false, "duo", none, none⟩,
          Call.SecondaryNew "u1" .User "duo" (.ok ⟨"tok2", "u1", .User, "duo"⟩),
          Call.GetData ⟨"tok2", "u1", .User, "duo"⟩ (.ok "tok2")] ∧
    (Surface.user.login .authU2fSignPost providerWorld sampleContext).response
      = .JSON 201 (.secondaryData "tok2") :=
  have h := device_factor_no_bypass .user providerWorld sampleContext ⟨"tok1", "resp"⟩
    ⟨"tok1", "u1", .User, DeviceProvider⟩ ⟨"u1", "alice"⟩ ⟨"tok2", "u1", .User, "duo"⟩ "tok2"
    rfl rfl rfl rfl rfl rfl (by decide) rfl rfl
  ⟨h.1, h.2.1⟩

/-! ## The register flow -/

/-- Handler `authU2fRegisterGet` makes no `NewSession` call and opens
challenges of scope `Register` for the device provider only. -/
theorem user_authU2fRegisterGet_calls (w : World) (c : Context) :
    (uhandlers.authU2fRegisterGet w c).trace.all
      (fun call => !call.isNewSession && call.opensRegister) = true := by
  simp only [uhandlers.authU2fRegisterGet]
  repeat' split
  all_goals rfl

/-- Handler `authU2fRegisterPost` makes no `NewSession` call and looks
challenges up with the scope `Register` only. -/
theorem user_authU2fRegisterPost_calls (w : World) (c : Context) :
    (uhandlers.authU2fRegisterPost w c).trace.all
      (fun call => !call.isNewSession && call.looksUpRegister) = true := by
  simp only [uhandlers.authU2fRegisterPost]
  repeat' split
  all_goals rfl

/-- C11, as stated, fails in `authU2fRegisterPost` when the device verifier
returns without error and `audit.New` fails: with error data from the verifier
the response is 500, not 401, and without error data it is 500, not 200. -/
theorem register_flow_counterexample :
    uhandlers.authU2fRegisterPost auditFailsWorld sampleContext
      = ⟨[Call.Blocked none,
          Call.AuthrGetUser sampleContext.authorizer (.ok ⟨"u1", "alice"⟩),
          Call.SecondaryGet "tok1" .Register (.ok ⟨"tok1", "u1", .Register, DeviceProvider⟩),
          Call.DeviceRegisterResponse ⟨"tok1", "u1", .Register, DeviceProvider⟩ "resp"
            ⟨none, none⟩,
          Call.AuditNew sampleRequest "u1" .UserDeviceRegister [("method", "secondary")]
            (some otherError)],
        .AbortWithError 500 otherError⟩ ∧
    (uhandlers.authU2fRegisterPost
        { auditFailsWorld with
          DeviceRegisterResponse := fun _ _ => ⟨some sampleErrorData, none⟩ }
        sampleContext).response
      = .AbortWithError 500 otherError := by
  decide

/-- C11, amended: for all results of the callees, the traces of
`authU2fRegisterGet` and `authU2fRegisterPost` hold no `NewSession` call;
every challenge `authU2fRegisterGet` opens has the scope `Register` and the
provider `DeviceProvider`; every lookup of `authU2fRegisterPost` has the scope
`Register`; and when the device verifier was called and returned without
error, `authU2fRegisterPost` makes exactly one `audit.New` call, for the
request: of kind `user-device-register-failed` with the verifier's error and
message, followed by 401 with the error data if the audit returns without
error, when the verifier returns error data, and of kind
`user-device-register`, followed by 200 if the audit returns without error,
otherwise. -/
theorem register_flow (w : World) (c : Context) :
    (∀ call ∈ (uhandlers.authU2fRegisterGet w c).trace, call.isNewSession = false) ∧
    (∀ call ∈ (uhandlers.authU2fRegisterPost w c).trace, call.isNewSession = false) ∧
    (∀ userId typ providerId res,
      Call.SecondaryNew userId typ providerId res ∈ (uhandlers.authU2fRegisterGet w c).trace →
      typ = .Register ∧ providerId = DeviceProvider) ∧
    (∀ token typ res,
      Call.SecondaryGet token typ res ∈ (uhandlers.authU2fRegisterPost w c).trace →
      typ = .Register) ∧
    (∀ secd resp h,
      Call.DeviceRegisterResponse secd resp h ∈ (uhandlers.authU2fRegisterPost w c).trace →
      h.err = none →
      (∀ errData, h.errData = some errData →
        ∃ userId a,
          (uhandlers.authU2fRegisterPost w c).trace.filter Call.isAuditNew
            = [Call.AuditNew c.Request userId .UserDeviceRegisterFailed
                [("error", errData.Error), ("message", errData.Message)] a] ∧
          (a = none →
            (uhandlers.authU2fRegisterPost w c).response = .JSON 401 (.errorData errData))) ∧
      (h.errData = none →
        ∃ userId a,
          (uhandlers.authU2fRegisterPost w c).trace.filter Call.isAuditNew
            = [Call.AuditNew c.Request userId .UserDeviceRegister
                [("method", "secondary")] a] ∧
          (a = none → (uhandlers.authU2fRegisterPost w c).response = .JSON 200 .nil))) := by
  have hget := List.all_eq_true.mp (user_authU2fRegisterGet_calls w c)
  have hpost := List.all_eq_true.mp (user_authU2fRegisterPost_calls w c)
  refine ⟨?_, ?_, ?_, ?_, ?_⟩
  · intro call hc
    have := hget call hc
    simp only [Bool.and_eq_true, Bool.not_eq_true'] at this
    exact this.1
  · intro call hc
    have := hpost call hc
    simp only [Bool.and_eq_true, Bool.not_eq_true'] at this
    exact this.1
  · intro userId typ providerId res hc
    have := hget _ hc
    simpa [Call.opensRegister, Call.isNewSession] using this
  · intro token typ res hc
    have := hpost _ hc
    simpa [Call.looksUpRegister, Call.isNewSession] using this
  · clear hget hpost
    intro secd resp h
    simp only [uhandlers.authU2fRegisterPost]
    repeat' split
    all_goals
      intro hc
      simp only [List.mem_append, List.mem_cons, List.mem_singleton, List.not_mem_nil,
        or_false, false_or, reduceCtorEq, Call.DeviceRegisterResponse.injEq, or_self] at hc
    all_goals
      obtain ⟨rfl, rfl, rfl⟩ := hc
      simp_all [Call.isAuditNew, List.filter]
    all_goals exact ⟨_, _, ⟨rfl, rfl⟩, by simp⟩

/-- The register handlers in the sample world and in a world where the device
verifier rejects the response: one audit each, 200 and 401, and no
`NewSession` call. -/
theorem register_flow_witness :
    (uhandlers.authU2fRegisterPost sampleWorld sampleContext).trace.filter Call.isAuditNew
      = [Call.AuditNew sampleRequest "u1" .UserDeviceRegister [("method", "secondary")] none] ∧
    (uhandlers.authU2fRegisterPost sampleWorld sampleContext).response = .JSON 200 .nil ∧
    (uhandlers.authU2fRegisterPost registerRejectsWorld sampleContext).trace.filter
        Call.isAuditNew
      = [Call.AuditNew sampleRequest "u1" .UserDeviceRegisterFailed
          [("error", "unauthorized"), ("message", "Not authorized")] none] ∧
    (uhandlers.authU2fRegisterPost registerRejectsWorld sampleContext).response
      = .JSON 401 (.errorData sampleErrorData) ∧
    (∀ call ∈ (uhandlers.authU2fRegisterPost sampleWorld sampleContext).trace,
      call.isNewSession = false) ∧
    Call.SecondaryNew "u1" .Register DeviceProvider (.ok ⟨"tok2", "u1", .Register, DeviceProvider⟩)
      ∈ (uhandlers.authU2fRegisterGet sampleWorld sampleContext).trace :=
  ⟨by decide, by decide, by decide, by decide,
    (register_flow sampleWorld sampleContext).2.1, by decide⟩

/-! ## Logout of all sessions -/

/-- A loop of `logoutAllGet` that returns no error has removed every session
of its list, in order. -/
theorem removeSessions_trace (w : World) (sessions : List Session)
    (h : (uhandlers.removeSessions w sessions).2 = none) :
    (uhandlers.removeSessions w sessions).1
      = sessions.map (fun sess => Call.SessionRemove sess none) := by
  induction sessions with
  | nil => rfl
  | cons sess rest ih =>
    rw [uhandlers.removeSessions] at h ⊢
    split at h
    · simp at h
    · rename_i hs
      simp only [hs, List.map_cons, List.cons.injEq, true_and]
      exact ih h

/-- The store after a list of successful removals holds the sessions whose id
is the id of none of the removed ones. -/
theorem Store.run_removals (st : Store) (sessions : List Session) :
    st.run (sessions.map (fun sess => Call.SessionRemove sess none))
      = st.filter (fun s => sessions.all (fun sess => s.Id != sess.Id)) := by
  induction sessions generalizing st with
  | nil => simp [Store.run]
  | cons sess rest ih =>
    have := ih (st.remove sess)
    simp only [Store.run, List.map_cons, List.foldl_cons, Store.apply] at this ⊢
    rw [this]
    simp [Store.remove, List.filter_filter, Bool.and_comm]

/-- Removing a session from a store that holds no session of its id changes
nothing. -/
theorem Store.remove_of_absent (st : Store) (sess : Session)
    (h : ∀ s ∈ st, s.Id ≠ sess.Id) : st.remove sess = st := by
  simp only [Store.remove]
  rw [List.filter_eq_self]
  intro s hs
  simpa using h s hs

/-- A store from which a session was removed holds no session of its id. -/
theorem Store.not_mem_remove (st : Store) (sess : Session) :
    ∀ s ∈ st.remove sess, s.Id ≠ sess.Id := by
  intro s hs
  simp only [Store.remove, List.mem_filter] at hs
  simpa using hs.2

/-- The loop of `logoutAllGet` depends on the world through `sess.Remove`
only. -/
theorem removeSessions_congr (w w2 : World) (h : w2.SessionRemove = w.SessionRemove)
    (sessions : List Session) :
    uhandlers.removeSessions w2 sessions = uhandlers.removeSessions w sessions := by
  induction sessions with
  | nil => rfl
  | cons sess rest ih =>
    rw [uhandlers.removeSessions, uhandlers.removeSessions, h, ih]

/-- The sessions left after the removal of the sessions the store lists for a
user: none is of that user, and none has the id of a listed session. -/
theorem Store.filter_listed (st : Store) (userId : ObjectId) :
    ∀ s ∈ st.filter (fun s => (st.getAll userId).all (fun sess => s.Id != sess.Id)),
      s.User ≠ userId ∧ ∀ sess ∈ st.getAll userId, s.Id ≠ sess.Id := by
  intro s hs
  simp only [List.mem_filter, List.all_eq_true, bne_iff_ne, ne_eq] at hs
  refine ⟨fun hU => ?_, hs.2⟩
  have hmem : s ∈ st.getAll userId := by
    simp only [Store.getAll, List.mem_filter, beq_iff_eq]
    exact ⟨hs.1, hU⟩
  exact hs.2 s hmem rfl

/-- One request `GET /logout_all` that does not answer 500: it redirects to
`/`, and the store after it is the store without the listed sessions, and
without the session of the authorizer when the authorizer is valid. -/
theorem logoutAll_first (w : World) (c : Context) (st : Store) (usr : User)
    (hu : w.AuthrGetUser c.authorizer = .ok usr)
    (h1 : (logoutAll w c st).1.statusCode ≠ 500) :
    (logoutAll w c st).1 = .Redirect 302 "/" ∧
    (logoutAll w c st).2
      = (if w.IsValid c.authorizer = true then
          Store.apply (st.filter (fun s => (st.getAll usr.Id).all (fun sess => s.Id != sess.Id)))
            (Call.AuthrRemove c.authorizer none)
        else st.filter (fun s => (st.getAll usr.Id).all (fun sess => s.Id != sess.Id))) ∧
    (∃ listed, w.GetAll usr.Id false = .ok listed) ∧
    (w.IsValid c.authorizer = true → w.AuthrRemove c.authorizer = none) := by
  have hloop := removeSessions_congr w (w.onStore st) rfl (st.getAll usr.Id)
  revert h1
  cases hg : w.GetAll usr.Id false with
  | error err =>
    simp [logoutAll, uhandlers.logoutAllGet, World.onStore, hu, hg, Response.statusCode]
  | ok listed =>
    cases hl : (uhandlers.removeSessions w (st.getAll usr.Id)).2 with
    | some err =>
      simp [logoutAll, uhandlers.logoutAllGet, World.onStore, hu, hg, Response.statusCode]
      simp [World.onStore] at hloop
      simp [hloop, hl]
    | none =>
      have htr := removeSessions_trace w _ hl
      cases hv : w.IsValid c.authorizer with
      | false =>
        simp [World.onStore] at hloop
        simp [logoutAll, uhandlers.logoutAllGet, World.onStore, hu, hg, hl, hv, hloop, htr,
          Response.statusCode, Store.run, List.foldl_append, Store.apply]
        have := Store.run_removals st (st.getAll usr.Id)
        simpa [Store.run] using this
      | true =>
        cases hr : w.AuthrRemove c.authorizer with
        | some err =>
          simp [World.onStore] at hloop
          simp [logoutAll, uhandlers.logoutAllGet, World.onStore, hu, hg, hl, hv, hr, hloop,
            Response.statusCode]
        | none =>
          simp [World.onStore] at hloop
          simp [logoutAll, uhandlers.logoutAllGet, World.onStore, hu, hg, hl, hv, hr, hloop,
            htr, Response.statusCode, Store.run, List.foldl_append]
          have := Store.run_removals st (st.getAll usr.Id)
          simp only [Store.run] at this
          show Store.apply (List.foldl Store.apply st
            (List.map (fun sess => Call.SessionRemove sess none) (st.getAll usr.Id)))
              (Call.AuthrRemove c.authorizer none) = _
          rw [this]

/-- One request `GET /logout_all` on a store that holds no session of the
user, where `session.GetAll` returns without error and the authorizer, if
valid, is removed without error and without effect: it redirects to `/` and
leaves the store as it is. -/
theorem logoutAll_nothing_left (w : World) (c : Context) (st : Store) (usr : User)
    (hu : w.AuthrGetUser c.authorizer = .ok usr)
    (hempty : st.getAll usr.Id = [])
    (hg : ∃ listed, w.GetAll usr.Id false = .ok listed)
    (hr : w.IsValid c.authorizer = true →
      w.AuthrRemove c.authorizer = none ∧
      st.apply (Call.AuthrRemove c.authorizer none) = st) :
    logoutAll w c st = (.Redirect 302 "/", st) := by
  obtain ⟨listed, hg⟩ := hg
  cases hv : w.IsValid c.authorizer with
  | false =>
    simp [logoutAll, uhandlers.logoutAllGet, World.onStore, hu, hg, hv, hempty,
      uhandlers.removeSessions, Store.run, Store.apply]
  | true =>
    obtain ⟨hrem, hsame⟩ := hr hv
    simp [logoutAll, uhandlers.logoutAllGet, World.onStore, hu, hg, hv, hempty, hrem,
      uhandlers.removeSessions, Store.run]
    exact hsame

/-- C12: over the model store, for every store, context and user of the
authorizer: a first `logoutAllGet` that does not answer 500 redirects 302 to
`/` and leaves no session of the user in the store: none of the listed
sessions, and not the authorizer's session when the authorizer is valid.  A
second `logoutAllGet` on the resulting store, with the authorizer valid only
if it was valid in the first request, redirects 302 to `/` and leaves the
store as the first request left it. -/
theorem logout_all_idempotent (w : World) (c : Context) (st : Store) (usr : User)
    (valid2 : Authorizer → Bool)
    (hu : w.AuthrGetUser c.authorizer = .ok usr)
    (h1 : (logoutAll w c st).1.statusCode ≠ 500)
    (hv2 : valid2 c.authorizer = true → w.IsValid c.authorizer = true) :
    (logoutAll w c st).1 = .Redirect 302 "/" ∧
    (∀ s ∈ (logoutAll w c st).2, s.User ≠ usr.Id) ∧
    (∀ sess ∈ st.getAll usr.Id, ∀ s ∈ (logoutAll w c st).2, s.Id ≠ sess.Id) ∧
    (w.IsValid c.authorizer = true → ∀ sess, c.authorizer.sess = some sess →
      ∀ s ∈ (logoutAll w c st).2, s.Id ≠ sess.Id) ∧
    (logoutAll { w with IsValid := valid2 } c (logoutAll w c st).2).1 = .Redirect 302 "/" ∧
    (logoutAll { w with IsValid := valid2 } c (logoutAll w c st).2).2
      = (logoutAll w c st).2 := by
  obtain ⟨hresp, hstore, hg, hrem⟩ := logoutAll_first w c st usr hu h1
  have hF := Store.filter_listed st usr.Id
  -- the store after the first request is part of the store without the listed sessions
  have hsub : ∀ s ∈ (logoutAll w c st).2,
      s ∈ st.filter (fun s => (st.getAll usr.Id).all (fun sess => s.Id != sess.Id)) := by
    intro s hs
    rw [hstore] at hs
    split at hs
    · simp only [Store.apply] at hs
      split at hs
      · exact (List.mem_filter.mp hs).1
      · exact hs
    · exact hs
  have huser : ∀ s ∈ (logoutAll w c st).2, s.User ≠ usr.Id := fun s hs => (hF s (hsub s hs)).1
  have hcur : w.IsValid c.authorizer = true → ∀ sess, c.authorizer.sess = some sess →
      ∀ s ∈ (logoutAll w c st).2, s.Id ≠ sess.Id := by
    intro hv sess hsess s hs
    rw [hstore, if_pos hv] at hs
    simp only [Store.apply, hsess] at hs
    exact Store.not_mem_remove _ _ s hs
  have hempty : Store.getAll (logoutAll w c st).2 usr.Id = [] := by
    simp only [Store.getAll]
    rw [List.filter_eq_nil_iff]
    intro s hs
    simpa using huser s hs
  have hsecond : logoutAll { w with IsValid := valid2 } c (logoutAll w c st).2
      = (.Redirect 302 "/", (logoutAll w c st).2) := by
    apply logoutAll_nothing_left { w with IsValid := valid2 } c _ usr hu hempty hg
    intro hv
    have hv1 := hv2 hv
    refine ⟨hrem hv1, ?_⟩
    show Store.apply (logoutAll w c st).2 (Call.AuthrRemove c.authorizer none) = _
    cases hsess : c.authorizer.sess with
    | none => simp only [Store.apply, hsess]
    | some sess =>
      simp only [Store.apply, hsess]
      exact Store.remove_of_absent _ sess (hcur hv1 sess hsess)
  refine ⟨hresp, huser, ?_, hcur, ?_, ?_⟩
  · intro sess hsess s hs
    exact (hF s (hsub s hs)).2 sess hsess
  · rw [hsecond]
  · rw [hsecond]

/-- The user `u1` with the sessions `s1` and `s3` in a store of three
sessions: the first request leaves the session of `u2` only, and the second
request, with the authorizer no longer valid, leaves the same store. -/
theorem logout_all_idempotent_witness :
    sampleWorld.AuthrGetUser sampleContext.authorizer = .ok ⟨"u1", "alice"⟩ ∧
    logoutAll sampleWorld sampleContext sampleStore
      = (.Redirect 302 "/", [{ Id := "s2", User := "u2" }]) ∧
    (logoutAll { sampleWorld with IsValid := fun _ => false } sampleContext
        (logoutAll sampleWorld sampleContext sampleStore).2).1 = .Redirect 302 "/" ∧
    (logoutAll { sampleWorld with IsValid := fun _ => false } sampleContext
        (logoutAll sampleWorld sampleContext sampleStore).2).2
      = (logoutAll sampleWorld sampleContext sampleStore).2 :=
  have h := logout_all_idempotent sampleWorld sampleContext sampleStore ⟨"u1", "alice"⟩
    (fun _ => false) rfl (by decide) (by simp)
  ⟨rfl, by decide, h.2.2.2.2.1, h.2.2.2.2.2⟩

/-! ## The two surfaces compared -/

/-- Handler `authSessionPost`: the user surface is the administrator surface
with the role parameters renamed. -/
theorem authSessionPost_sameEngine (w : World) (c : Context) :
    sameEngine c.Request.URL.RawQuery (mhandlers.authSessionPost w.asAdmin c)
      (uhandlers.authSessionPost w c) := by
  simp only [mhandlers.authSessionPost, uhandlers.authSessionPost, World.asAdmin,
    SecondaryScope.toUser, AuditKind.toUser, Cookie.toUser, SessionScope.toUser]
  repeat' split
  all_goals try simp only [*]
  all_goals
    refine ⟨rfl, fun h => ?_, fun h => ?_⟩
  all_goals first
    | rfl
    | exact ⟨rfl, rfl⟩
    | exact absurd h Bool.false_ne_true
    | exact absurd h.symm Bool.false_ne_true

/-- Handler `authSecondaryPost`: the user surface is the administrator surface
with the role parameters renamed. -/
theorem authSecondaryPost_sameEngine (w : World) (c : Context) :
    sameEngine c.Request.URL.RawQuery (mhandlers.authSecondaryPost w.asAdmin c)
      (uhandlers.authSecondaryPost w c) := by
  simp only [mhandlers.authSecondaryPost, uhandlers.authSecondaryPost, World.asAdmin,
    SecondaryScope.toUser, AuditKind.toUser, Cookie.toUser, SessionScope.toUser]
  repeat' split
  all_goals try simp only [*]
  all_goals
    refine ⟨rfl, fun h => ?_, fun h => ?_⟩
  all_goals first
    | rfl
    | exact ⟨rfl, rfl⟩
    | exact absurd h Bool.false_ne_true
    | exact absurd h.symm Bool.false_ne_true

/-- Handler `authU2fSignGet`: the user surface is the administrator surface
with the role parameters renamed. -/
theorem authU2fSignGet_sameEngine (w : World) (c : Context) :
    sameEngine c.Request.URL.RawQuery (mhandlers.authU2fSignGet w.asAdmin c)
      (uhandlers.authU2fSignGet w c) := by
  simp only [mhandlers.authU2fSignGet, uhandlers.authU2fSignGet, World.asAdmin,
    SecondaryScope.toUser, AuditKind.toUser, Cookie.toUser, SessionScope.toUser]
  repeat' split
  all_goals try simp only [*]
  all_goals
    refine ⟨rfl, fun h => ?_, fun h => ?_⟩
  all_goals first
    | rfl
    | exact ⟨rfl, rfl⟩
    | exact absurd h Bool.false_ne_true

/-- Handler `authU2fSignPost`: the user surface is the administrator surface
with the role parameters renamed. -/
theorem authU2fSignPost_sameEngine (w : World) (c : Context) :
    sameEngine c.Request.URL.RawQuery (mhandlers.authU2fSignPost w.asAdmin c)
      (uhandlers.authU2fSignPost w c) := by
  simp only [mhandlers.authU2fSignPost, uhandlers.authU2fSignPost, World.asAdmin,
    SecondaryScope.toUser, AuditKind.toUser, Cookie.toUser, SessionScope.toUser]
  repeat' split
  all_goals try simp only [*]
  all_goals
    refine ⟨rfl, fun h => ?_, fun h => ?_⟩
  all_goals first
    | rfl
    | exact ⟨rfl, rfl⟩
    | exact absurd h Bool.false_ne_true
    | exact absurd h.symm Bool.false_ne_true

/-- C13: for each of `authSessionPost`, `authSecondaryPost`, `authU2fSignGet`
and `authU2fSignPost` and for all results of the callees, the trace of the user
handler is the trace of the administrator handler with the role parameters
renamed (`ValidateAdmin` to `ValidateUser`, `secondary.Admin` to
`secondary.User`, `AdminLogin` and `AdminLoginFailed` to `UserLogin` and
`UserLoginFailed`, `cookie.NewAdmin` and `session.Admin` to `cookie.NewUser`
and `session.User`), the callees returning the same results for the renamed
parameters; where a session is installed the administrator handler answers
the status 200 and the user handler the redirect built from the raw query of
the request, and elsewhere the two responses are equal. -/
theorem same_engine (h : EngineHandler) (w : World) (c : Context) :
    (h.user w c).trace = (h.admin w.asAdmin c).trace.map Call.toUser ∧
    ((h.admin w.asAdmin c).trace.any Call.installsSession = true →
      (h.admin w.asAdmin c).response = .Status 200 ∧
      (h.user w c).response = .redirectQueryJson c.Request.URL.RawQuery) ∧
    ((h.admin w.asAdmin c).trace.any Call.installsSession = false →
      (h.user w c).response = (h.admin w.asAdmin c).response) := by
  cases h
  · exact authSessionPost_sameEngine w c
  · exact authSecondaryPost_sameEngine w c
  · exact authU2fSignGet_sameEngine w c
  · exact authU2fSignPost_sameEngine w c

/-- The sample world, where both surfaces install a session in
`authSecondaryPost`: the administrator answers 200, the user the redirect with
the raw query, and the user's trace is the administrator's, renamed. -/
theorem same_engine_witness :
    (EngineHandler.authSecondaryPost.admin sampleWorld.asAdmin sampleContext).trace.any
      Call.installsSession = true ∧
    (EngineHandler.authSecondaryPost.admin sampleWorld.asAdmin sampleContext).response
      = .Status 200 ∧
    (EngineHandler.authSecondaryPost.user sampleWorld sampleContext).response
      = .redirectQueryJson "next=%2Fapp" ∧
    (EngineHandler.authSecondaryPost.user sampleWorld sampleContext).trace
      = (EngineHandler.authSecondaryPost.admin sampleWorld.asAdmin sampleContext).trace.map
          Call.toUser :=
  have h := same_engine .authSecondaryPost sampleWorld sampleContext
  ⟨by decide, (h.2.1 (by decide)).1, (h.2.1 (by decide)).2, h.1⟩

/-! ## The search indexer -/

/-- The hash of an address list is the digest of the addresses joined, with
nothing between them. -/
theorem search.hashAddresses_eq {H : Type} (md5 : String → H) (addrs : List String) :
    search.hashAddresses md5 addrs = md5 (String.join addrs) := rfl

/-- C14: the claim asks that address lists that differ as ordered lists hash
differently, so that `watchSearch` calls `update` on every change.
`hashAddresses` writes the addresses to the hash with nothing between them:
for every digest `md5`, the lists `["ab", "c"]` and `["a", "bc"]` differ and
hash the same, and a pass of `watchSearch` that holds the hash of the first and
reads the second calls no `update`; the non-empty list `[""]` hashes as the
empty list that `watchSearch` starts from, and the first pass calls no
`update`.  This holds for an injective digest too, the identity. -/
theorem hashAddresses_misses_change :
    (["ab", "c"] : List String) ≠ ["a", "bc"] ∧
    ([""] : List String) ≠ [] ∧
    (∀ (md5 : String → String) (update : List String → Option GoError),
      search.hashAddresses md5 ["ab", "c"] = search.hashAddresses md5 ["a", "bc"] ∧
      search.watchSearchPass md5 update (search.hashAddresses md5 ["ab", "c"]) ["a", "bc"]
        = ([], search.hashAddresses md5 ["ab", "c"]) ∧
      search.hashAddresses md5 [""] = search.hashAddresses md5 [] ∧
      search.watchSearchPass md5 update (search.hashAddresses md5 []) [""]
        = ([], search.hashAddresses md5 [])) ∧
    ¬ (∀ md5 : String → String, Function.Injective md5 →
        ∀ a b : List String, a ≠ b →
          search.hashAddresses md5 a ≠ search.hashAddresses md5 b) := by
  refine ⟨by decide, by decide, fun md5 update => ⟨rfl, ?_, rfl, ?_⟩, fun h => ?_⟩
  · have heq : search.hashAddresses md5 ["ab", "c"] = search.hashAddresses md5 ["a", "bc"] :=
      rfl
    simp only [search.watchSearchPass, ne_eq, heq, not_true_eq_false, if_false]
  · have heq : search.hashAddresses md5 [] = search.hashAddresses md5 [""] := rfl
    simp only [search.watchSearchPass, ne_eq, heq, not_true_eq_false, if_false]
  · exact h id Function.injective_id ["ab", "c"] ["a", "bc"] (by decide) rfl

/-! ## The register response and the caller -/

/-- C15: in `authU2fRegisterPost`, for two runs on the same request that
differ in the user id of the `Register` challenge found by the token and agree
in the other results of the callees, the responses are equal and the audit
calls are equal; the user id of every audit call is the id of the user that
the authorizer returns, whatever the user id of the challenge is; and once the
authorizer has returned a user, `DeviceRegisterResponse` is called on the
challenge found, in both runs. -/
theorem register_not_bound_to_caller (w₁ w₂ : World) (c : Context)
    (data : u2fRegisterData) (secd : Secondary) (userId₂ : ObjectId)
    (hb : c.BindU2fRegisterData = .ok data)
    (hblk : w₂.Blocked c = w₁.Blocked c)
    (hu : w₂.AuthrGetUser c.authorizer = w₁.AuthrGetUser c.authorizer)
    (hg₁ : w₁.SecondaryGet data.Token .Register = .ok secd)
    (hg₂ : w₂.SecondaryGet data.Token .Register = .ok { secd with UserId := userId₂ })
    (hd : w₂.DeviceRegisterResponse { secd with UserId := userId₂ } data.Response
      = w₁.DeviceRegisterResponse secd data.Response)
    (ha : w₂.AuditNew = w₁.AuditNew) :
    (uhandlers.authU2fRegisterPost w₂ c).response
      = (uhandlers.authU2fRegisterPost w₁ c).response ∧
    (uhandlers.authU2fRegisterPost w₂ c).trace.filter Call.isAuditNew
      = (uhandlers.authU2fRegisterPost w₁ c).trace.filter Call.isAuditNew ∧
    (∀ r userId typ fields res,
      Call.AuditNew r userId typ fields res ∈ (uhandlers.authU2fRegisterPost w₁ c).trace →
      ∃ usr, w₁.AuthrGetUser c.authorizer = .ok usr ∧ userId = usr.Id) ∧
    (∀ usr, w₁.Blocked c = none → w₁.AuthrGetUser c.authorizer = .ok usr →
      Call.DeviceRegisterResponse secd data.Response
          (w₁.DeviceRegisterResponse secd data.Response)
        ∈ (uhandlers.authU2fRegisterPost w₁ c).trace ∧
      Call.DeviceRegisterResponse { secd with UserId := userId₂ } data.Response
          (w₁.DeviceRegisterResponse secd data.Response)
        ∈ (uhandlers.authU2fRegisterPost w₂ c).trace) := by
  simp only [uhandlers.authU2fRegisterPost, hb, hblk, hu, hg₁, hg₂, hd, ha]
  repeat' split
  all_goals simp_all [Call.isAuditNew, List.filter]

/-- The authorizer's user `u1` answers a challenge of the user `u9`: the
response is the 200 of the run with the user's own challenge, and the audit
is written for `u1`. -/
theorem register_not_bound_to_caller_witness :
    otherUserWorld.SecondaryGet "tok1" .Register = .ok ⟨"tok1", "u9", .Register, DeviceProvider⟩ ∧
    (uhandlers.authU2fRegisterPost otherUserWorld sampleContext).response
      = (uhandlers.authU2fRegisterPost sampleWorld sampleContext).response ∧
    (uhandlers.authU2fRegisterPost otherUserWorld sampleContext).trace.filter Call.isAuditNew
      = [Call.AuditNew sampleRequest "u1" .UserDeviceRegister [("method", "secondary")] none] :=
  have h := register_not_bound_to_caller sampleWorld otherUserWorld sampleContext
    ⟨"tok1", "resp"⟩ ⟨"tok1", "u1", .Register, DeviceProvider⟩ "u9" rfl rfl rfl rfl rfl rfl rfl
  ⟨rfl, h.1, by decide⟩

end PritunlZero
